import Mathlib

/-!
# authentik-helper: admin panel front end

A shallow embedding of the browser-side code under `web/static/js`
(`ui.js`, `data.js`, `api.js`, `state.js`, `handlers.js`) and theorems about
its filtering, pagination, selection and error-handling logic.

Conventions of the embedding:

* a JavaScript string is the list of its characters (`JsString`);
* a JavaScript number is an integer or `NaN` (`JsNum`); page sizes and list
  lengths are natural numbers, page numbers are integers; the arithmetic of
  the code is exact on these ranges (doubles represent every integer below
  `2^53`), fractional numbers and infinities are not represented, except for
  the stored page size read by `loadSize`, which is a `JsNumber`: NaN, an
  infinity or a finite rational;
* a field of a JSON record is a scalar (`JsVal`): absent (`undefined`),
  `null`, a boolean, a number or a string;
* the DOM is a record of the elements the code reads and writes, and an
  `async` function is a function of the outcomes of the requests it awaits.
-/

namespace AuthentikHelper

/-! ## JavaScript values -/

/-- A JavaScript string, as the list of its characters. -/
abbrev JsString := List Char

/-- A JavaScript number: an integer or `NaN`. -/
inductive JsNum where
  | nan
  | int (n : Int)
  deriving DecidableEq, Repr

/-- A scalar JavaScript value, as found in a field of a parsed JSON record
(`undefined` stands for an absent field). -/
inductive JsVal where
  | undefined
  | null
  | bool (b : Bool)
  | num (n : JsNum)
  | str (s : JsString)
  deriving DecidableEq, Repr

/-- Decimal digits of an integer, as `String(n)` prints them. -/
def intToJsString (n : Int) : JsString :=
  if n < 0 then '-' :: Nat.toDigits 10 n.natAbs else Nat.toDigits 10 n.toNat

/-- The conversion `String(v)`. -/
def jsString : JsVal → JsString
  | .undefined => "undefined".toList
  | .null => "null".toList
  | .bool true => "true".toList
  | .bool false => "false".toList
  | .num .nan => "NaN".toList
  | .num (.int n) => intToJsString n
  | .str s => s

/-- The operator `v ?? d`: `d` when `v` is `null` or `undefined`. -/
def nullish (v d : JsVal) : JsVal :=
  match v with
  | .undefined => d
  | .null => d
  | _ => v

/-- Truthiness of a value, as tested by `||`, `&&`, `!` and `? :`. -/
def truthy : JsVal → Bool
  | .undefined => false
  | .null => false
  | .bool b => b
  | .num .nan => false
  | .num (.int n) => n != 0
  | .str s => !s.isEmpty

/-- The operator `a || b`: `a` when it is truthy, else `b`. -/
def jsOr (a b : JsVal) : JsVal := if truthy a then a else b

/-- The helper `str = (v) => String(v ?? '')` of `handlers.js`, the same expression
as the row key of `renderTable`. -/
def str (v : JsVal) : JsString := jsString (nullish v (.str []))

/-- The method `hay.includes(needle)`: `needle` occurs in `hay` as a contiguous run. -/
def includes (hay needle : JsString) : Bool :=
  match hay with
  | [] => needle.isEmpty
  | c :: cs => needle.isPrefixOf (c :: cs) || includes cs needle

/-- The method `list.slice(s, e)` for integer arguments: a negative index counts
from the end, both indices are clamped to the list. -/
def jsSlice {α : Type} (l : List α) (s e : Int) : List α :=
  let len : Int := l.length
  let k : Int := if s < 0 then max (len + s) 0 else min s len
  let fin : Int := if e < 0 then max (len + e) 0 else min e len
  (l.drop k.toNat).take (fin - k).toNat

/-- White space and line terminators, the characters `String.prototype.trim` strips. -/
def isJsWhitespace (c : Char) : Bool :=
  let n := c.toNat
  n == 0x09 || n == 0x0A || n == 0x0B || n == 0x0C || n == 0x0D || n == 0x20 ||
  n == 0xA0 || n == 0x1680 || (0x2000 ≤ n && n ≤ 0x200A) || n == 0x2028 ||
  n == 0x2029 || n == 0x202F || n == 0x205F || n == 0x3000 || n == 0xFEFF

/-- The method `s.trim()`. -/
def jsTrim (s : JsString) : JsString :=
  ((s.dropWhile isJsWhitespace).reverse.dropWhile isJsWhitespace).reverse

/-- The built-in conversions whose tables are part of the language runtime and
not of this program: `String.prototype.toLowerCase` and the conversion of a
string to a number. The functions below take them as a parameter. -/
structure JsRuntime where
  toLowerCase : JsString → JsString
  stringToNumber : JsString → JsNum

/-- The conversion `Number(v)`. -/
def jsNumber (rt : JsRuntime) : JsVal → JsNum
  | .undefined => .nan
  | .null => .int 0
  | .bool true => .int 1
  | .bool false => .int 0
  | .num n => n
  | .str s => rt.stringToNumber s

/-- Value of a run of decimal digits, `none` when a character is not a digit. -/
def digitsValue (acc : Nat) : List Char → Option Nat
  | [] => some acc
  | c :: cs => if c.isDigit then digitsValue (acc * 10 + (c.toNat - 48)) cs else none

/-- A runtime for concrete evaluations: lower-casing of the ASCII letters, and
string-to-number conversion of (signed) decimal integer literals. -/
def asciiRuntime : JsRuntime where
  toLowerCase := fun s => s.map Char.toLower
  stringToNumber := fun s =>
    match jsTrim s with
    | [] => .int 0
    | '-' :: c :: cs => match digitsValue 0 (c :: cs) with
      | some n => .int (-(n : Int))
      | none => .nan
    | '+' :: c :: cs => match digitsValue 0 (c :: cs) with
      | some n => .int n
      | none => .nan
    | cs => match digitsValue 0 cs with
      | some n => .int n
      | none => .nan

/-! ## `Set` objects

A `Set` is the list of its elements in insertion order; membership is
`SameValueZero`, which on `JsVal` is equality. -/

/-- The method `set.has(v)`. -/
def setHas (s : List JsVal) (v : JsVal) : Bool := s.contains v

/-- The method `set.add(v)`. -/
def setAdd (s : List JsVal) (v : JsVal) : List JsVal := if setHas s v then s else s ++ [v]

/-- The method `set.delete(v)`. -/
def setDelete (s : List JsVal) (v : JsVal) : List JsVal := s.filter (fun x => x != v)

/-- The constructor `new Set(values)`. -/
def setOf (values : List JsVal) : List JsVal := values.foldl setAdd []

/-! ## `state.js`: constants and application state -/

/-- The constant `PAGE_SIZE_PRESETS`. -/
def PAGE_SIZE_PRESETS : List Nat := [25, 50, 100]

/-- The constant `SIMPLE_NAV_MAX`: only first/prev/next/last when `pages ≤ 2`. -/
def SIMPLE_NAV_MAX : Int := 2

/-- The constant `MAX_FULL_PAGES`: full numbering when `pages ≤ 7`. -/
def MAX_FULL_PAGES : Int := 7

/-- The transition a record is tagged with at load time. -/
inductive Action where
  | promote
  | demote
  deriving DecidableEq, Repr

/-- A user record of a cohort list. -/
structure User where
  pk : JsVal
  username : JsVal
  email : JsVal
  __action : Action
  deriving DecidableEq, Repr

/-- The two cohorts; `kind === 'guest'` selects the first, any other value the second. -/
inductive Kind where
  | guest
  | members
  deriving DecidableEq, Repr

/-- The module state of `state.js`. -/
structure AppState where
  GUEST_DATA : List User
  MEMBER_DATA : List User
  guestSelected : List JsVal
  memberSelected : List JsVal
  guestPage : Int
  membersPage : Int
  guestPageSize : Nat
  membersPageSize : Nat
  deriving DecidableEq, Repr

/-! ## The page

The elements the code looks up, all present in the page template. -/

/-- A header checkbox. -/
structure Checkbox where
  checked : Bool
  indeterminate : Bool
  deriving DecidableEq, Repr

/-- A bulk action button: its `disabled` property and the class `is-hidden`. -/
structure BulkButton where
  disabled : Bool
  hidden : Bool
  deriving DecidableEq, Repr

/-- A selected-count label: its text and the class `is-hidden`. -/
structure CountLabel where
  text : JsString
  hidden : Bool
  deriving DecidableEq, Repr

/-- A table row as written by `renderTable`: the checkbox (`data-pk`, `checked`),
the three cells and the action button (`data-action`, `data-pk`). -/
structure Row where
  key : JsString
  checked : Bool
  pkCell : JsString
  usernameCell : JsString
  emailCell : JsString
  action : Action
  buttonPk : JsString
  deriving DecidableEq, Repr

/-- A first/prev/next/last button of the pager. -/
structure NavButton where
  dataPage : Int
  disabled : Bool
  deriving DecidableEq, Repr

/-- An item of `pageNumbersFor`: a page number or the string `'…'`. -/
inductive PageItem where
  | num (n : Int)
  | ellipsis
  deriving DecidableEq, Repr

/-- An element of `div.pager-numbers`: a numbered button (`data-page`, class
`is-active`) or an ellipsis span. -/
inductive NumberItem where
  | button (n : Int) (active : Bool)
  | ellipsis
  deriving DecidableEq, Repr

/-- The content of a rendered pager. -/
structure PagerView where
  sizeOptions : List (Nat × Bool)
  countFrom : Int
  countTo : Int
  countTotal : Nat
  first : NavButton
  prev : NavButton
  numbers : Option (List NumberItem)
  next : NavButton
  last : NavButton
  deriving DecidableEq, Repr

/-- The content of `#invite-result`. -/
inductive InviteResult where
  | text (s : JsString)
  | link (url : JsString) (expires : Option JsString)
  deriving DecidableEq, Repr

/-- The page: the state of the elements the code reads and writes. A pager that
is `none` has empty content; `location` is the last value assigned to
`window.location.href`. -/
structure Dom where
  guestFilter : JsString
  membersFilter : JsString
  guestStatus : JsString
  membersStatus : JsString
  guestTitle : JsString
  membersTitle : JsString
  guestSelectAll : Checkbox
  membersSelectAll : Checkbox
  guestRows : List Row
  membersRows : List Row
  guestPager : Option PagerView
  membersPager : Option PagerView
  guestPromoteSelected : BulkButton
  guestSelectedCount : CountLabel
  membersDemoteSelected : BulkButton
  membersSelectedCount : CountLabel
  promoMail : Bool
  inviteStatus : JsString
  inviteResult : InviteResult
  location : Option JsString
  deriving DecidableEq, Repr

/-- The module state together with the page. -/
structure World where
  st : AppState
  dom : Dom
  deriving DecidableEq, Repr

/-! ## `ui.js`: filtering and paging -/

/-- The function `filterUsers(list, q)`; an absent `q` is `none`. -/
def filterUsers (rt : JsRuntime) (list : List User) (q : Option JsString) : List User :=
  let needle := rt.toLowerCase (jsTrim (q.getD []))
  if needle.isEmpty then list
  else list.filter (fun u =>
    [u.pk, u.username, u.email].any (fun v => includes (rt.toLowerCase (str v)) needle))

/-- The value `Math.ceil(a / b)` for a natural `a` and a positive natural `b`. -/
def ceilDiv (a b : Nat) : Nat := (a + b - 1) / b

/-- The result record of `paginate`. -/
structure Paginated (α : Type) where
  slice : List α
  total : Nat
  pages : Int
  page : Int
  start : Int
  end_ : Int

/-- The function `paginate(list, page, pageSize)`. -/
def paginate {α : Type} (list : List α) (page : Int) (pageSize : Nat) : Paginated α :=
  let total := list.length
  let pages : Int := max 1 (ceilDiv total pageSize : Nat)
  let safePage : Int := min (max 1 page) pages
  let start : Int := (safePage - 1) * pageSize
  let finish : Int := start + pageSize
  let slice := jsSlice list start finish
  { slice := slice, total := total, pages := pages, page := safePage,
    start := start, end_ := min finish total }

/-- The function `getVisible(kind)`: the rows of the current page of the filtered list. -/
def getVisible (rt : JsRuntime) (w : World) (kind : Kind) : List User :=
  let isGuest := kind == Kind.guest
  let data := if isGuest then w.st.GUEST_DATA else w.st.MEMBER_DATA
  let q := if isGuest then w.dom.guestFilter else w.dom.membersFilter
  let filtered := filterUsers rt data (some q)
  let size := if isGuest then w.st.guestPageSize else w.st.membersPageSize
  let curPage := if isGuest then w.st.guestPage else w.st.membersPage
  (paginate filtered curPage size).slice

/-! ## `ui.js`: renderers -/

/-- The row `renderTable` writes for one record. -/
def renderRow (selectedSet : List JsVal) (u : User) : Row :=
  let key := str u.pk
  { key := key,
    checked := setHas selectedSet (.str key),
    pkCell := str u.pk,
    usernameCell := str u.username,
    emailCell := str u.email,
    action := u.__action,
    buttonPk := jsString u.pk }

/-- The function `renderTable(tbody, list, opts)`: the rows of the table body. -/
def renderTable (w : World) (list : List User) (kind : Kind) : World :=
  let isGuest := kind == Kind.guest
  let selectedSet := if isGuest then w.st.guestSelected else w.st.memberSelected
  let rows := list.map (renderRow selectedSet)
  if isGuest then { w with dom := { w.dom with guestRows := rows } }
  else { w with dom := { w.dom with membersRows := rows } }

/-- The loop `for (let p = left; p <= right; p++) items.push(p)`. -/
def pushPages (p right : Int) (items : List PageItem) : List PageItem :=
  if p ≤ right then pushPages (p + 1) right (items ++ [PageItem.num p]) else items
termination_by (right + 1 - p).toNat
decreasing_by omega

/-- The expression `Array.from({ length: n }, (_, i) => i + 1)`. -/
def arrayFromLength (n : Int) : List Int :=
  (List.range n.toNat).map (fun (i : Nat) => (i : Int) + 1)

/-- The function `pageNumbersFor(totalPages, current)`. -/
def pageNumbersFor (totalPages current : Int) : List PageItem :=
  if totalPages ≤ MAX_FULL_PAGES then (arrayFromLength totalPages).map PageItem.num
  else
    let items : List PageItem := []
    let left := max 2 (current - 1)
    let right := min (totalPages - 1) (current + 1)
    let items := items ++ [PageItem.num 1]
    let items := if left > 2 then items ++ [PageItem.ellipsis] else items
    let items := pushPages left right items
    let items := if right < totalPages - 1 then items ++ [PageItem.ellipsis] else items
    items ++ [PageItem.num totalPages]

/-- The content `renderPager` computes for the pager element: `none` when the
element is emptied. -/
def pagerContent (pageSize filteredTotal : Nat) (page pages start end_ : Int) :
    Option PagerView :=
  if filteredTotal ≤ pageSize then none
  else
    let presets := PAGE_SIZE_PRESETS
    let presets := if !presets.contains pageSize then pageSize :: presets else presets
    let sizeOptions := presets.map (fun v => (v, v == pageSize))
    let disabledPrev := decide (page ≤ 1)
    let disabledNext := decide (page ≥ pages)
    let numbers : Option (List NumberItem) :=
      if pages ≤ SIMPLE_NAV_MAX then none
      else if pages ≤ MAX_FULL_PAGES then
        some ((arrayFromLength pages).map (fun n => NumberItem.button n (n == page)))
      else
        some ((pageNumbersFor pages page).map (fun item =>
          match item with
          | PageItem.ellipsis => NumberItem.ellipsis
          | PageItem.num n => NumberItem.button n (n == page)))
    some
      { sizeOptions := sizeOptions,
        countFrom := start + 1,
        countTo := end_,
        countTotal := filteredTotal,
        first := { dataPage := 1, disabled := disabledPrev },
        prev := { dataPage := page - 1, disabled := disabledPrev },
        numbers := numbers,
        next := { dataPage := page + 1, disabled := disabledNext },
        last := { dataPage := pages, disabled := disabledNext } }

/-- The function `renderPager(kind, filteredTotal, page, pages, start, end)`. -/
def renderPager (w : World) (kind : Kind) (filteredTotal : Nat) (page pages start end_ : Int) :
    World :=
  let pageSize := if kind == Kind.guest then w.st.guestPageSize else w.st.membersPageSize
  let content := pagerContent pageSize filteredTotal page pages start end_
  if kind == Kind.guest then { w with dom := { w.dom with guestPager := content } }
  else { w with dom := { w.dom with membersPager := content } }

/-- The two values `updateHeaderSelectAll` assigns: `checked` and `indeterminate`. -/
def headerState (set : List JsVal) (visible : List User) : Checkbox :=
  let allVisibleSelected :=
    decide (visible.length > 0) && visible.all (fun u => setHas set (.str (str u.pk)))
  { checked := allVisibleSelected,
    indeterminate :=
      decide (visible.length > 0) && !allVisibleSelected &&
        visible.any (fun u => setHas set (.str (jsString u.pk))) }

/-- The function `updateHeaderSelectAll(kind)`. -/
def updateHeaderSelectAll (rt : JsRuntime) (w : World) (kind : Kind) : World :=
  let set := if kind == Kind.guest then w.st.guestSelected else w.st.memberSelected
  let visible := getVisible rt w kind
  let cb := headerState set visible
  if kind == Kind.guest then { w with dom := { w.dom with guestSelectAll := cb } }
  else { w with dom := { w.dom with membersSelectAll := cb } }

/-- The function `updateBulkButtons()`. -/
def updateBulkButtons (w : World) : World :=
  let showBulk (count : Nat) : BulkButton × CountLabel :=
    ({ disabled := count == 0, hidden := count == 0 },
     { text := Nat.toDigits 10 count ++ " selected".toList, hidden := count == 0 })
  let g := showBulk w.st.guestSelected.length
  let m := showBulk w.st.memberSelected.length
  { w with dom := { w.dom with
      guestPromoteSelected := g.1, guestSelectedCount := g.2,
      membersDemoteSelected := m.1, membersSelectedCount := m.2 } }

/-- The function `refreshTable(kind)`. -/
def refreshTable (rt : JsRuntime) (w : World) (kind : Kind) : World :=
  let isGuest := kind == Kind.guest
  let data := if isGuest then w.st.GUEST_DATA else w.st.MEMBER_DATA
  let filterValue := if isGuest then w.dom.guestFilter else w.dom.membersFilter
  let size := if isGuest then w.st.guestPageSize else w.st.membersPageSize
  let curPage := if isGuest then w.st.guestPage else w.st.membersPage
  let filtered := filterUsers rt data (some filterValue)
  let r := paginate filtered curPage size
  let w := if isGuest then { w with st := { w.st with guestPage := r.page } }
    else { w with st := { w.st with membersPage := r.page } }
  let w := renderTable w r.slice kind
  let w := renderPager w kind r.total r.page r.pages r.start r.end_
  let w := updateHeaderSelectAll rt w kind
  updateBulkButtons w

/-! ## `api.js`: the HTTP helper -/

/-- An element of the `users` array of a listing; an element that is not an
object has all three fields absent. -/
structure RawUser where
  pk : JsVal
  username : JsVal
  email : JsVal
  deriving DecidableEq, Repr

/-- The fields the code reads from a parsed JSON object; `users` is `none` when
the field is not an array. -/
structure JsonObject where
  detail : JsVal
  error : JsVal
  message : JsVal
  group_name : JsVal
  users : Option (List RawUser)
  invite_url : JsVal
  pk : JsVal
  expires_friendly : JsVal
  deriving DecidableEq, Repr

/-- A parsed JSON body: a scalar (`null`, boolean, number, string) or an object. -/
inductive Body where
  | scalar (v : JsVal)
  | object (o : JsonObject)
  deriving DecidableEq, Repr

/-- Truthiness of a parsed body. -/
def Body.truthy : Body → Bool
  | .scalar v => AuthentikHelper.truthy v
  | .object _ => true

/-- An `Error` object, with the `status` and `body` properties `apiFetch` may add. -/
structure JsError where
  name : JsString
  message : JsString
  status : Option Int
  body : Option Body
  deriving DecidableEq, Repr

/-- The expression `new Error(message)`. -/
def newError (message : JsString) : JsError :=
  { name := "Error".toList, message := message, status := none, body := none }

/-- A `fetch` response: the `content-type` header (`none` when missing),
`redirected`, `url`, `status`, and what `res.json()` yields (`none` when the
body does not parse). -/
structure Response where
  contentType : Option JsString
  redirected : Bool
  url : JsString
  status : Int
  json : Option Body
  deriving DecidableEq, Repr

/-- The property `res.ok`: the status is in the range 200 to 299. -/
def Response.ok (res : Response) : Bool := decide (200 ≤ res.status) && decide (res.status ≤ 299)

/-- What `apiFetch` does besides settling: assigning `window.location.href`,
calling `res.json()`. -/
inductive Effect where
  | navigate (href : JsString)
  | readJson
  deriving DecidableEq, Repr

/-- The settled promise of `apiFetch` with the effects performed on the way. -/
structure ApiOutcome where
  result : Except JsError Body
  effects : List Effect

/-- The function `apiFetch(path, options)`, as a function of what `fetch` settles with. -/
def apiFetch (fetched : Except JsError Response) : ApiOutcome :=
  match fetched with
  | .error e => { result := .error e, effects := [] }
  | .ok res =>
    let ct := res.contentType.getD []
    let looksJson := includes ct "application/json".toList
    if !looksJson then
      let isLogin := res.redirected || (!res.url.isEmpty && includes res.url "/login".toList)
      if isLogin || res.status == 401 || res.status == 303 then
        { result := .error (newError "redirected to login".toList),
          effects := [Effect.navigate "/login".toList] }
      else
        { result := .error (newError ("unexpected response ".toList ++ intToJsString res.status)),
          effects := [] }
    else
      match res.json with
      | none =>
        { result := .error (newError "invalid json response".toList),
          effects := [Effect.readJson] }
      | some body =>
        if !res.ok then
          let detail : JsVal :=
            match body with
            | .scalar v => if AuthentikHelper.truthy v then JsVal.undefined else v
            | .object o => jsOr (jsOr o.detail o.error) o.message
          let err := newError
            (if AuthentikHelper.truthy detail then jsString detail
             else "http ".toList ++ intToJsString res.status)
          { result := .error { err with status := some res.status, body := some body },
            effects := [Effect.readJson] }
        else { result := .ok body, effects := [Effect.readJson] }

/-- Performs the effects of an `apiFetch` call on the page. -/
def applyEffects (w : World) (effects : List Effect) : World :=
  effects.foldl (fun w e =>
    match e with
    | Effect.navigate href => { w with dom := { w.dom with location := some href } }
    | Effect.readJson => w) w

/-! ## `data.js`: loading a cohort -/

/-- The `TypeError` of reading a property of `null`. -/
def nullPropertyError : JsError :=
  { name := "TypeError".toList, message := "Cannot read properties of null".toList,
    status := none, body := none }

/-- The loop `for (const pk of Array.from(selected)) if (!existing.has(pk)) selected.delete(pk)`. -/
def pruneSelection (existing : List JsVal) (selected : List JsVal) : List JsVal :=
  selected.foldl (fun sel pk => if !setHas existing pk then setDelete sel pk else sel) selected

/-- The body of `loadGuestUsers` and `loadMemberUsers`, which differ in the
cohort only: returns the world when the function settles and the rejection, if any. -/
def loadUsers (rt : JsRuntime) (kind : Kind) (w : World) (fetched : Except JsError Response) :
    World × Option JsError :=
  let isGuest := kind == Kind.guest
  let loading := "loading…".toList
  let w : World := if isGuest then { w with dom := { w.dom with guestStatus := loading } }
    else { w with dom := { w.dom with membersStatus := loading } }
  let out := apiFetch fetched
  let w := applyEffects w out.effects
  match out.result with
  | .error e => (w, some e)
  | .ok (.scalar .null) => (w, some nullPropertyError)
  | .ok (.scalar .undefined) => (w, some nullPropertyError)
  | .ok data =>
    let groupName : JsVal := match data with
      | .object o => o.group_name
      | .scalar _ => JsVal.undefined
    let users : List RawUser := match data with
      | .object o => o.users.getD []
      | .scalar _ => []
    let title := jsString (jsOr groupName
      (.str (if isGuest then "Guests".toList else "Members".toList)))
    let w : World := if isGuest then { w with dom := { w.dom with guestTitle := title } }
      else { w with dom := { w.dom with membersTitle := title } }
    let action := if isGuest then Action.promote else Action.demote
    let list : List User := users.map (fun u =>
      { pk := u.pk, username := u.username, email := u.email, __action := action })
    let w : World := if isGuest then { w with st := { w.st with GUEST_DATA := list } }
      else { w with st := { w.st with MEMBER_DATA := list } }
    let existing := setOf (list.map (fun u => JsVal.num (jsNumber rt u.pk)))
    let w : World :=
      if isGuest then
        { w with st := { w.st with guestSelected := pruneSelection existing w.st.guestSelected } }
      else
        { w with st := { w.st with memberSelected := pruneSelection existing w.st.memberSelected } }
    let w : World := if isGuest then { w with st := { w.st with guestPage := 1 } }
      else { w with st := { w.st with membersPage := 1 } }
    let w := refreshTable rt w kind
    let status := if list.length != 0
      then "loaded ".toList ++ Nat.toDigits 10 list.length ++ " users.".toList
      else "no users found.".toList
    let w : World := if isGuest then { w with dom := { w.dom with guestStatus := status } }
      else { w with dom := { w.dom with membersStatus := status } }
    (w, none)

/-- The function `loadGuestUsers()`. -/
def loadGuestUsers (rt : JsRuntime) (w : World) (fetched : Except JsError Response) :
    World × Option JsError :=
  loadUsers rt Kind.guest w fetched

/-- The function `loadMemberUsers()`. -/
def loadMemberUsers (rt : JsRuntime) (w : World) (fetched : Except JsError Response) :
    World × Option JsError :=
  loadUsers rt Kind.members w fetched

/-! ## `ui.js`: the invite result -/

/-- The function `renderInviteResult(payload)`. -/
def renderInviteResult (w : World) (payload : Body) : World :=
  let field (f : JsonObject → JsVal) : JsVal :=
    match payload with
    | .object o => jsOr (f o) (.str [])
    | .scalar _ => .str []
  let url := field (fun o => o.invite_url)
  let pk := field (fun o => o.pk)
  let exp := field (fun o => o.expires_friendly)
  let content : InviteResult :=
    if truthy url then
      InviteResult.link (jsString url) (if truthy exp then some (jsString exp) else none)
    else if truthy pk then InviteResult.text ("invite uuid: ".toList ++ jsString pk)
    else InviteResult.text "no invite url returned".toList
  { w with dom := { w.dom with inviteResult := content } }

/-! ## `handlers.js`: event handlers

An `async` handler is a function of the outcomes of the requests it awaits.
The requests of a batch settle in the order of the selected keys, and the two
reloads that follow an action run one after the other, guests first. -/

/-- The text `String((err && err.message) || err)` shown for a caught error. -/
def errorText (err : JsError) : JsString :=
  if !err.message.isEmpty then err.message
  else if err.name.isEmpty then err.message else err.name

/-- The handler of `input` on a filter field, once the debounce delay has passed. -/
def filterInput (rt : JsRuntime) (w : World) (kind : Kind) : World :=
  let w : World := if kind == Kind.guest then { w with st := { w.st with guestPage := 1 } }
    else { w with st := { w.st with membersPage := 1 } }
  refreshTable rt w kind

/-- The handler of `change` on a header checkbox, which the browser has already
toggled: adds or removes the keys of the visible rows. -/
def selectAllChange (rt : JsRuntime) (w : World) (kind : Kind) : World :=
  let visible := getVisible rt w kind
  let isGuest := kind == Kind.guest
  let checked := if isGuest then w.dom.guestSelectAll.checked else w.dom.membersSelectAll.checked
  let selected := if isGuest then w.st.guestSelected else w.st.memberSelected
  let selected :=
    if checked then visible.foldl (fun s u => setAdd s (.str (str u.pk))) selected
    else visible.foldl (fun s u => setDelete s (.str (str u.pk))) selected
  let w : World := if isGuest then { w with st := { w.st with guestSelected := selected } }
    else { w with st := { w.st with memberSelected := selected } }
  refreshTable rt w kind

/-- The delegated click on a row checkbox with attribute `data-pk = key`, in the
table of `kind`, whose state after the click is `checked`. -/
def rowSelectClick (rt : JsRuntime) (w : World) (kind : Kind) (key : JsString) (checked : Bool) :
    World :=
  let pk := JsVal.str (str (.str key))
  let isGuestTable := kind == Kind.guest
  let set := if isGuestTable then w.st.guestSelected else w.st.memberSelected
  let set := if checked then setAdd set pk else setDelete set pk
  let w : World := if isGuestTable then { w with st := { w.st with guestSelected := set } }
    else { w with st := { w.st with memberSelected := set } }
  refreshTable rt w kind

/-- The delegated click on a pager button with `data-kind` and `data-page`. -/
def pagerClick (rt : JsRuntime) (w : World) (kind : Kind) (page : Int) : World :=
  let w : World := if kind == Kind.guest then { w with st := { w.st with guestPage := page } }
    else { w with st := { w.st with membersPage := page } }
  refreshTable rt w kind

/-- The first rejection among the settled requests of a batch. -/
def firstRejection : List ApiOutcome → Option JsError
  | [] => none
  | o :: rest =>
    match o.result with
    | .error e => some e
    | .ok _ => firstRejection rest

/-- The expression `Promise.all([loadGuestUsers(), loadMemberUsers()])`. -/
def reloadBoth (rt : JsRuntime) (w : World) (guestFetch membersFetch : Except JsError Response) :
    World × Option JsError :=
  let g := loadGuestUsers rt w guestFetch
  let m := loadMemberUsers rt g.1 membersFetch
  (m.1, match g.2 with
    | some e => some e
    | none => m.2)

/-- The two bulk handlers, `click` on `#guest-promote-selected` (`kind` guest) and
on `#members-demote-selected`: `respond` gives what the request for a selected
key settles with, `guestFetch` and `membersFetch` what the reloads fetch. -/
def bulkClick (rt : JsRuntime) (kind : Kind) (w : World)
    (respond : JsVal → Except JsError Response)
    (guestFetch membersFetch : Except JsError Response) : World :=
  let isGuest := kind == Kind.guest
  let pks := if isGuest then w.st.guestSelected else w.st.memberSelected
  if pks.length == 0 then w
  else
    let setDisabled (w : World) (d : Bool) : World :=
      if isGuest then
        { w with dom := { w.dom with
            guestPromoteSelected := { w.dom.guestPromoteSelected with disabled := d } } }
      else
        { w with dom := { w.dom with
            membersDemoteSelected := { w.dom.membersDemoteSelected with disabled := d } } }
    let setStatus (w : World) (text : JsString) : World :=
      if isGuest then { w with dom := { w.dom with guestStatus := text } }
      else { w with dom := { w.dom with membersStatus := text } }
    let n := Nat.toDigits 10 pks.length
    let w := setDisabled w true
    let w := setStatus w
      ((if isGuest then "promoting ".toList else "demoting ".toList) ++ n ++ "…".toList)
    let outcomes := pks.map (fun pk => apiFetch (respond pk))
    let w := outcomes.foldl (fun w o => applyEffects w o.effects) w
    let w : World :=
      match firstRejection outcomes with
      | some err => setStatus w ("error: ".toList ++ errorText err)
      | none =>
        let w : World := if isGuest then { w with st := { w.st with guestSelected := [] } }
          else { w with st := { w.st with memberSelected := [] } }
        let r := reloadBoth rt w guestFetch membersFetch
        match r.2 with
        | some err => setStatus r.1 ("error: ".toList ++ errorText err)
        | none =>
          setStatus r.1
            ((if isGuest then "promoted ".toList else "demoted ".toList) ++ n ++
              " user".toList ++ (if pks.length == 1 then [] else "s".toList))
    let w := setDisabled w false
    let w := refreshTable rt w Kind.guest
    refreshTable rt w Kind.members

/-- The clicked button of a row: `data-action`, `data-pk`, `disabled` and its label. -/
structure ActionButton where
  action : Action
  pk : JsString
  disabled : Bool
  text : JsString
  deriving DecidableEq, Repr

/-- The delegated click on the action button of a row: `fetched` is what the
request settles with. Returns the world and the clicked button, which a
reload replaces in the table by a freshly rendered one. -/
def actionClick (rt : JsRuntime) (w : World) (btn : ActionButton)
    (fetched guestFetch membersFetch : Except JsError Response) : World × ActionButton :=
  let promote := btn.action == Action.promote
  let setStatus (w : World) (text : JsString) : World :=
    if promote then { w with dom := { w.dom with guestStatus := text } }
    else { w with dom := { w.dom with membersStatus := text } }
  let btn := { btn with disabled := true }
  let btn := { btn with
    text := (if promote then "promoting".toList else "demoting".toList) ++ "…".toList }
  let out := apiFetch fetched
  let w := applyEffects w out.effects
  match out.result with
  | .error err =>
    (setStatus w ("error: ".toList ++ errorText err), { btn with text := "Error".toList })
  | .ok _ =>
    let btn := { btn with
      text := (if promote then "Promoted".toList else "Demoted".toList) ++ " ✓".toList }
    let r := reloadBoth rt w guestFetch membersFetch
    match r.2 with
    | some err =>
      (setStatus r.1 ("error: ".toList ++ errorText err), { btn with text := "Error".toList })
    | none =>
      (setStatus r.1 (if promote then "promoted 1 user".toList else "demoted 1 user".toList), btn)

/-- The handler of `click` on `#invite-btn`: `fetched` is what the request to
`/invites` settles with. -/
def inviteClick (w : World) (fetched : Except JsError Response) : World :=
  let w : World := { w with dom := { w.dom with inviteStatus := "creating…".toList } }
  let w : World := { w with dom := { w.dom with inviteResult := InviteResult.text [] } }
  let out := apiFetch fetched
  let w := applyEffects w out.effects
  match out.result with
  | .ok j =>
    let w : World := { w with dom := { w.dom with inviteStatus := "invitation created ✓".toList } }
    renderInviteResult w j
  | .error err =>
    let w : World := { w with dom := { w.dom with inviteStatus := "failed".toList } }
    { w with dom := { w.dom with inviteResult := InviteResult.text (errorText err) } }

/-! ## `state.js`: the stored page size

The stored size is whatever string the browser kept, so the number read back
need not be an integer: here a number is NaN, an infinity or a finite value. -/

/-- A JavaScript number in full: NaN, `Infinity` or `-Infinity`, or a finite value. -/
inductive JsNumber where
  | nan
  | infinity (negative : Bool)
  | finite (q : ℚ)
  deriving DecidableEq

/-- The test `Number.isFinite(n)`. -/
def JsNumber.isFinite : JsNumber → Bool
  | .finite _ => true
  | _ => false

/-- The comparison `n > 0`. -/
def JsNumber.gtZero : JsNumber → Bool
  | .nan => false
  | .infinity negative => !negative
  | .finite q => decide (0 < q)

/-- The object `localStorage`: either every access throws, or it holds entries. -/
inductive Storage where
  | unavailable (err : JsError)
  | items (entries : List (JsString × JsString))

/-- The call `localStorage.getItem(key)`: the stored string, `none` for `null`. -/
def Storage.getItem : Storage → JsString → Except JsError (Option JsString)
  | .unavailable err, _ => .error err
  | .items entries, key => .ok ((entries.find? (fun e => e.1 == key)).map (fun e => e.2))

/-- The conversion `Number(raw)` of what `getItem` returned; `numberOfString` is
the runtime's conversion of a string. -/
def numberOfStored (numberOfString : JsString → JsNumber) : Option JsString → JsNumber
  | none => .finite 0
  | some s => numberOfString s

/-- The function `loadSize(key, fallback)`; the caller passes `fallback`
(50 when omitted). The result is `.ok`: the `try` block spans the body. -/
def loadSize (numberOfString : JsString → JsNumber) (storage : Storage) (key : JsString)
    (fallback : JsNumber) : Except JsError JsNumber :=
  match storage.getItem key with
  | .error _ => .ok fallback
  | .ok raw =>
    let n := numberOfStored numberOfString raw
    .ok (if n.isFinite && n.gtZero then n else fallback)

/-! ## Sample values for concrete evaluations -/

/-- The module state at start-up, with the two stored page sizes. -/
def initialState (guestPageSize membersPageSize : Nat) : AppState :=
  { GUEST_DATA := [], MEMBER_DATA := [], guestSelected := [], memberSelected := [],
    guestPage := 1, membersPage := 1,
    guestPageSize := guestPageSize, membersPageSize := membersPageSize }

/-- A page with empty fields, empty tables and unchecked boxes. -/
def blankDom : Dom :=
  { guestFilter := [], membersFilter := [], guestStatus := [], membersStatus := [],
    guestTitle := [], membersTitle := [],
    guestSelectAll := { checked := false, indeterminate := false },
    membersSelectAll := { checked := false, indeterminate := false },
    guestRows := [], membersRows := [], guestPager := none, membersPager := none,
    guestPromoteSelected := { disabled := true, hidden := true },
    guestSelectedCount := { text := [], hidden := true },
    membersDemoteSelected := { disabled := true, hidden := true },
    membersSelectedCount := { text := [], hidden := true },
    promoMail := false, inviteStatus := [], inviteResult := InviteResult.text [],
    location := none }

/-- A user record of the listing with the given `pk` and username. -/
def rawUser (pk : JsVal) (username : String) : RawUser :=
  { pk := pk, username := .str username.toList, email := .undefined }

/-- A JSON object with every field absent. -/
def emptyObject : JsonObject :=
  { detail := .undefined, error := .undefined, message := .undefined,
    group_name := .undefined, users := none, invite_url := .undefined,
    pk := .undefined, expires_friendly := .undefined }

/-- A JSON response with the given status and parsed body. -/
def jsonResponse (status : Int) (body : Body) : Response :=
  { contentType := some "application/json".toList, redirected := false, url := [],
    status := status, json := some body }

/-- An answer that is not JSON: an HTML page with the given status. -/
def htmlResponse (status : Int) : Response :=
  { contentType := some "text/html".toList, redirected := false, url := "/promote".toList,
    status := status, json := none }

/-- The error `apiFetch` rejects with on a 500 answer with body `{detail: "boom"}`. -/
def boomError : JsError :=
  { name := "Error".toList, message := "boom".toList, status := some 500,
    body := some (.object { emptyObject with detail := .str "boom".toList }) }

/-- A string-to-number conversion for concrete evaluations: `Infinity`,
`-Infinity` and (signed) decimal integer literals; anything else is NaN. -/
def sampleNumberOfString (s : JsString) : JsNumber :=
  if jsTrim s = "Infinity".toList then .infinity false
  else if jsTrim s = "-Infinity".toList then .infinity true
  else match asciiRuntime.stringToNumber s with
    | .nan => .nan
    | .int n => .finite n

/-- A storage holding the guest page size `25` and a members entry that is not a number. -/
def sampleStorage : Storage :=
  .items [("pager:guest:size".toList, "25".toList), ("pager:member:size".toList, "abc".toList)]

/-- A successful listing response with the given users. -/
def listingResponse (users : List RawUser) : Response :=
  jsonResponse 200 (.object { emptyObject with users := some users })

/-- A world at start-up showing the given guests, with the given guest selection. -/
def guestWorld (guests : List RawUser) (selected : List JsVal) : World :=
  { st := { initialState 50 50 with
      GUEST_DATA := guests.map (fun u =>
        { pk := u.pk, username := u.username, email := u.email, __action := Action.promote }),
      guestSelected := selected },
    dom := blankDom }

/-! ## Specification-side readings -/

/-- Spec wording, "first present of `detail`, `error`, `message`": the first of
the three fields of an object body that is there (neither absent nor `null`). -/
def firstPresent : Body → Option JsVal
  | .object o => [o.detail, o.error, o.message].find? (fun v => v != .undefined && v != .null)
  | .scalar _ => none

/-- Spec wording, the message of an `ApiError`: the first present field as a
string, else `"http <status>"`. -/
def specErrorMessage (status : Int) (body : Body) : JsString :=
  match firstPresent body with
  | some v => jsString v
  | none => "http ".toList ++ intToJsString status

/-- The first of `detail`, `error`, `message` of an object body that is truthy. -/
def firstTruthy : Body → Option JsVal
  | .object o => [o.detail, o.error, o.message].find? truthy
  | .scalar _ => none

/-- The pager element of a cohort. -/
def pagerOf (w : World) (kind : Kind) : Option PagerView :=
  if kind == Kind.guest then w.dom.guestPager else w.dom.membersPager

/-- The page size of a cohort. -/
def pageSizeOf (w : World) (kind : Kind) : Nat :=
  if kind == Kind.guest then w.st.guestPageSize else w.st.membersPageSize

/-- The selection set of a cohort. -/
def selectedOf (w : World) (kind : Kind) : List JsVal :=
  if kind == Kind.guest then w.st.guestSelected else w.st.memberSelected

/-- The header checkbox of a cohort. -/
def headerOf (w : World) (kind : Kind) : Checkbox :=
  if kind == Kind.guest then w.dom.guestSelectAll else w.dom.membersSelectAll

/-- The status text of a cohort. -/
def statusOf (w : World) (kind : Kind) : JsString :=
  if kind == Kind.guest then w.dom.guestStatus else w.dom.membersStatus

/-- The bulk button of a cohort: promote for guests, demote for members. -/
def bulkButtonOf (w : World) (kind : Kind) : BulkButton :=
  if kind == Kind.guest then w.dom.guestPromoteSelected else w.dom.membersDemoteSelected

/-! # Theorems -/

/-! ## Arithmetic of pagination -/

theorem ceilDiv_mul_bounds (a b : Nat) (hb : 0 < b) :
    a ≤ ceilDiv a b * b ∧ ceilDiv a b * b < a + b := by
  unfold ceilDiv
  have h1 : (a + b - 1) / b * b ≤ a + b - 1 := Nat.div_mul_le_self _ _
  have h2 := Nat.lt_div_mul_add (a := a + b - 1) hb
  constructor <;> omega

theorem ceilDiv_eq_ceil (a b : Nat) (hb : 0 < b) :
    ((ceilDiv a b : Nat) : Int) = ⌈(a : ℚ) / (b : ℚ)⌉ := by
  have hbq : (0 : ℚ) < (b : ℚ) := by exact_mod_cast hb
  obtain ⟨h1, h2⟩ := ceilDiv_mul_bounds a b hb
  generalize ceilDiv a b = q at h1 h2
  have h1q : (a : ℚ) ≤ (q : ℚ) * b := by exact_mod_cast h1
  have h2q : (q : ℚ) * b < a + b := by exact_mod_cast h2
  symm
  rw [Int.ceil_eq_iff]
  constructor
  · rw [lt_div_iff₀ hbq]
    push_cast
    linarith
  · rw [div_le_iff₀ hbq]
    push_cast
    linarith

theorem paginate_start_lt (total pageSize : Nat) (p : Int) (hps : 0 < pageSize)
    (hp1 : 1 ≤ p) (hp : p ≤ max 1 ((ceilDiv total pageSize : Nat) : Int)) :
    0 ≤ (p - 1) * pageSize ∧ ((p - 1) * pageSize ≤ total) ∧
      (0 < total → (p - 1) * (pageSize : Int) < total) := by
  obtain ⟨h1, h2⟩ := ceilDiv_mul_bounds total pageSize hps
  generalize ceilDiv total pageSize = q at h1 h2 hp
  have hq : (q : Int) * pageSize < total + pageSize := by exact_mod_cast h2
  have hpsz : (0 : Int) < pageSize := by exact_mod_cast hps
  have h0 : 0 ≤ (p - 1) * (pageSize : Int) := mul_nonneg (by omega) (by omega)
  rcases le_or_lt (q : Int) 1 with hq1 | hq1
  · have : p = 1 := by
      have : max 1 (q : Int) = 1 := max_eq_left hq1
      omega
    subst this
    simp
  · have hpq : p ≤ q := by
      have : max 1 (q : Int) = q := max_eq_right (by omega)
      omega
    have hmul : (p - 1) * (pageSize : Int) ≤ (q - 1) * pageSize :=
      mul_le_mul_of_nonneg_right (by omega) (by omega)
    have : ((q : Int) - 1) * pageSize < total := by linarith
    refine ⟨h0, by linarith, fun _ => by linarith⟩

/-- C1. For every list, every requested page number and every positive page
size, `paginate` returns a page with `1 ≤ page ≤ max(1, ceil(total/pageSize))`
where `total = list.length`, and `start ≤ end ≤ total`, `end - start ≤ pageSize`. -/
theorem paginate_bounds {α : Type} (list : List α) (page : Int) (pageSize : Nat)
    (hps : 0 < pageSize) :
    (paginate list page pageSize).total = list.length ∧
    1 ≤ (paginate list page pageSize).page ∧
    (paginate list page pageSize).page ≤ max 1 ⌈(list.length : ℚ) / (pageSize : ℚ)⌉ ∧
    (paginate list page pageSize).start ≤ (paginate list page pageSize).end_ ∧
    (paginate list page pageSize).end_ ≤ (paginate list page pageSize).total ∧
    (paginate list page pageSize).end_ - (paginate list page pageSize).start ≤ pageSize := by
  rw [← ceilDiv_eq_ceil _ _ hps]
  simp only [paginate]
  set pages : Int := max 1 ((ceilDiv list.length pageSize : Nat) : Int) with hpages
  set p : Int := min (max 1 page) pages with hp
  have hpages1 : 1 ≤ pages := le_max_left _ _
  have hp1 : 1 ≤ p := le_min (le_max_left _ _) hpages1
  have hple : p ≤ pages := min_le_right _ _
  obtain ⟨h0, hle, -⟩ := paginate_start_lt list.length pageSize p hps hp1 hple
  refine ⟨trivial, hp1, hple, ?_, ?_, ?_⟩
  · exact le_min (by omega) hle
  · exact min_le_right _ _
  · have := min_le_left ((p - 1) * (pageSize : Int) + pageSize) (list.length : Int)
    omega

/-- Witness for `paginate_bounds`: three records, requested page 5, page size 2. -/
theorem paginate_bounds_witness :
    0 < 2 ∧
    (paginate [10, 20, 30] 5 2).total = 3 ∧
    1 ≤ (paginate [10, 20, 30] 5 2).page ∧
    (paginate [10, 20, 30] 5 2).page ≤ max 1 ⌈(([10, 20, 30] : List Nat).length : ℚ) / ((2 : Nat) : ℚ)⌉ ∧
    (paginate [10, 20, 30] 5 2).start ≤ (paginate [10, 20, 30] 5 2).end_ ∧
    (paginate [10, 20, 30] 5 2).end_ ≤ (paginate [10, 20, 30] 5 2).total ∧
    (paginate [10, 20, 30] 5 2).end_ - (paginate [10, 20, 30] 5 2).start ≤ (2 : Nat) :=
  ⟨by decide, paginate_bounds [10, 20, 30] 5 2 (by decide)⟩

/-- Sample pages: a request past the end is clamped to the last page, a request
below 1 to the first, and an empty list has one empty page. -/
theorem paginate_samples :
    (paginate [10, 20, 30] 5 2).slice = [30] ∧ (paginate [10, 20, 30] 5 2).page = 2 ∧
    (paginate [10, 20, 30] (-4) 2).slice = [10, 20] ∧
    (paginate ([] : List Nat) 3 2).pages = 1 ∧ (paginate ([] : List Nat) 3 2).slice = [] := by
  decide


/-! ## Sets and the selection pruning loop -/

theorem setHas_iff (s : List JsVal) (v : JsVal) : setHas s v = true ↔ v ∈ s := by
  simp [setHas]

theorem mem_foldl_setAdd (vs acc : List JsVal) (x : JsVal) :
    x ∈ vs.foldl setAdd acc ↔ x ∈ acc ∨ x ∈ vs := by
  induction vs generalizing acc with
  | nil => simp
  | cons v vs ih =>
    rw [List.foldl_cons, ih]
    by_cases h : setHas acc v = true
    · have hv : v ∈ acc := (setHas_iff _ _).1 h
      simp only [setAdd, h, if_true, List.mem_cons]
      constructor
      · rintro (h1 | h1)
        · exact Or.inl h1
        · exact Or.inr (Or.inr h1)
      · rintro (h1 | h1 | h1)
        · exact Or.inl h1
        · exact Or.inl (h1 ▸ hv)
        · exact Or.inr h1
    · simp only [setAdd, h, List.mem_append, List.mem_singleton, List.mem_cons]
      simp only [Bool.false_eq_true, if_false, List.mem_append, List.mem_singleton]
      tauto

theorem mem_setOf (vs : List JsVal) (x : JsVal) : x ∈ setOf vs ↔ x ∈ vs := by
  simp [setOf, mem_foldl_setAdd]

theorem prune_foldl (existing l acc : List JsVal) :
    l.foldl (fun sel pk => if !setHas existing pk then setDelete sel pk else sel) acc =
      acc.filter (fun x => !(l.contains x && !existing.contains x)) := by
  induction l generalizing acc with
  | nil => simp
  | cons a l ih =>
    rw [List.foldl_cons, ih]
    by_cases h : setHas existing a = true
    · have ha : a ∈ existing := (setHas_iff _ _).1 h
      simp only [h, Bool.not_true, Bool.false_eq_true, if_false]
      apply List.filter_congr
      intro x _
      by_cases hx : x = a
      · subst hx; simp [ha]
      · simp [hx]
    · have ha : a ∉ existing := fun hmem => h ((setHas_iff _ _).2 hmem)
      simp only [h, Bool.not_false, if_true, setDelete, List.filter_filter]
      apply List.filter_congr
      intro x _
      by_cases hx : x = a
      · subst hx; simp [ha]
      · simp [hx]

/-- The pruning loop keeps exactly the selected values that `existing` holds. -/
theorem pruneSelection_eq_filter (existing selected : List JsVal) :
    pruneSelection existing selected = selected.filter (fun x => existing.contains x) := by
  unfold pruneSelection
  rw [prune_foldl]
  apply List.filter_congr
  intro x hx
  simp [hx]


/-! ## What rendering and loading leave alone -/

theorem applyEffects_st (w : World) (effects : List Effect) : (applyEffects w effects).st = w.st := by
  unfold applyEffects
  induction effects generalizing w with
  | nil => rfl
  | cons e es ih =>
    rw [List.foldl_cons, ih]
    cases e <;> rfl

theorem refreshTable_guestSelected (rt : JsRuntime) (w : World) (kind : Kind) :
    (refreshTable rt w kind).st.guestSelected = w.st.guestSelected := by
  cases kind <;> rfl

theorem refreshTable_memberSelected (rt : JsRuntime) (w : World) (kind : Kind) :
    (refreshTable rt w kind).st.memberSelected = w.st.memberSelected := by
  cases kind <;> rfl

theorem refreshTable_GUEST_DATA (rt : JsRuntime) (w : World) (kind : Kind) :
    (refreshTable rt w kind).st.GUEST_DATA = w.st.GUEST_DATA := by
  cases kind <;> rfl

theorem refreshTable_MEMBER_DATA (rt : JsRuntime) (w : World) (kind : Kind) :
    (refreshTable rt w kind).st.MEMBER_DATA = w.st.MEMBER_DATA := by
  cases kind <;> rfl

/-- The numeric keys `new Set(list.map(u => Number(u.pk)))` of a cohort list. -/
theorem loadGuestUsers_selection (rt : JsRuntime) (w : World) (fetched : Except JsError Response)
    (h : (loadGuestUsers rt w fetched).2 = none) :
    (loadGuestUsers rt w fetched).1.st.guestSelected =
      pruneSelection
        (setOf ((loadGuestUsers rt w fetched).1.st.GUEST_DATA.map
          (fun u => JsVal.num (jsNumber rt u.pk))))
        w.st.guestSelected := by
  unfold loadGuestUsers loadUsers at h ⊢
  simp only [] at h ⊢
  split at h
  · simp at h
  · simp at h
  · simp at h
  · rename_i data hres h1 h2
    simp [hres, refreshTable_guestSelected, refreshTable_GUEST_DATA, applyEffects_st]



theorem loadMemberUsers_selection (rt : JsRuntime) (w : World) (fetched : Except JsError Response)
    (h : (loadMemberUsers rt w fetched).2 = none) :
    (loadMemberUsers rt w fetched).1.st.memberSelected =
      pruneSelection
        (setOf ((loadMemberUsers rt w fetched).1.st.MEMBER_DATA.map
          (fun u => JsVal.num (jsNumber rt u.pk))))
        w.st.memberSelected := by
  unfold loadMemberUsers loadUsers at h ⊢
  simp only [] at h ⊢
  split at h
  · simp at h
  · simp at h
  · simp at h
  · rename_i data hres h1 h2
    simp [hres, refreshTable_memberSelected, refreshTable_MEMBER_DATA, applyEffects_st]

/-- A value survives the pruning loop only if it was selected and is the
numeric form of the `pk` of a record of the list. -/
theorem mem_pruneSelection (rt : JsRuntime) (list : List User) (selected : List JsVal)
    (x : JsVal)
    (hx : x ∈ pruneSelection (setOf (list.map (fun u => JsVal.num (jsNumber rt u.pk)))) selected) :
    x ∈ selected ∧ ∃ u ∈ list, x = JsVal.num (jsNumber rt u.pk) := by
  rw [pruneSelection_eq_filter, List.mem_filter] at hx
  refine ⟨hx.1, ?_⟩
  have hmem : x ∈ setOf (list.map (fun u => JsVal.num (jsNumber rt u.pk))) := by
    simpa using hx.2
  rw [mem_setOf, List.mem_map] at hmem
  obtain ⟨u, hu, hux⟩ := hmem
  exact ⟨u, hu, hux.symm⟩

/-- No string survives the pruning loop: the set it is compared with holds numbers. -/
theorem str_not_mem_pruneSelection (rt : JsRuntime) (list : List User) (selected : List JsVal)
    (k : JsString) :
    JsVal.str k ∉ pruneSelection (setOf (list.map (fun u => JsVal.num (jsNumber rt u.pk)))) selected := by
  intro hx
  obtain ⟨-, u, -, hu⟩ := mem_pruneSelection rt list selected _ hx
  cases hu

/-! ## C2: the selection after a load -/

/-- C2. After `loadGuestUsers` (resp. `loadMemberUsers`) completes, every value
left in the guest (resp. member) selection set was selected before and is the
numeric form of the `pk` of a record of the newly stored list; when the
selection held string keys, as the handlers store them, every key left is the
key of a record of the new list; and a key that was selected and is the key of
no record of the new list is no longer selected. -/
theorem selection_within_list_after_load (rt : JsRuntime) (w : World)
    (fetched : Except JsError Response) :
    ((loadGuestUsers rt w fetched).2 = none →
      (∀ x ∈ (loadGuestUsers rt w fetched).1.st.guestSelected,
        x ∈ w.st.guestSelected ∧
        ∃ u ∈ (loadGuestUsers rt w fetched).1.st.GUEST_DATA, x = JsVal.num (jsNumber rt u.pk)) ∧
      ((∀ x ∈ w.st.guestSelected, ∃ k, x = JsVal.str k) →
        ∀ x ∈ (loadGuestUsers rt w fetched).1.st.guestSelected,
          ∃ u ∈ (loadGuestUsers rt w fetched).1.st.GUEST_DATA, x = JsVal.str (str u.pk)) ∧
      (∀ k, JsVal.str k ∈ w.st.guestSelected →
        (∀ u ∈ (loadGuestUsers rt w fetched).1.st.GUEST_DATA, str u.pk ≠ k) →
        JsVal.str k ∉ (loadGuestUsers rt w fetched).1.st.guestSelected)) ∧
    ((loadMemberUsers rt w fetched).2 = none →
      (∀ x ∈ (loadMemberUsers rt w fetched).1.st.memberSelected,
        x ∈ w.st.memberSelected ∧
        ∃ u ∈ (loadMemberUsers rt w fetched).1.st.MEMBER_DATA, x = JsVal.num (jsNumber rt u.pk)) ∧
      ((∀ x ∈ w.st.memberSelected, ∃ k, x = JsVal.str k) →
        ∀ x ∈ (loadMemberUsers rt w fetched).1.st.memberSelected,
          ∃ u ∈ (loadMemberUsers rt w fetched).1.st.MEMBER_DATA, x = JsVal.str (str u.pk)) ∧
      (∀ k, JsVal.str k ∈ w.st.memberSelected →
        (∀ u ∈ (loadMemberUsers rt w fetched).1.st.MEMBER_DATA, str u.pk ≠ k) →
        JsVal.str k ∉ (loadMemberUsers rt w fetched).1.st.memberSelected)) := by
  constructor
  · intro h
    have hsel := loadGuestUsers_selection rt w fetched h
    refine ⟨?_, ?_, ?_⟩
    · intro x hx
      rw [hsel] at hx
      exact mem_pruneSelection rt _ _ x hx
    · intro hstr x hx
      have hx0 := hx
      rw [hsel] at hx
      obtain ⟨hxs, -⟩ := mem_pruneSelection rt _ _ x hx
      obtain ⟨k, rfl⟩ := hstr x hxs
      exact absurd hx (str_not_mem_pruneSelection rt _ _ k)
    · intro k _ _ hx
      rw [hsel] at hx
      exact str_not_mem_pruneSelection rt _ _ k hx
  · intro h
    have hsel := loadMemberUsers_selection rt w fetched h
    refine ⟨?_, ?_, ?_⟩
    · intro x hx
      rw [hsel] at hx
      exact mem_pruneSelection rt _ _ x hx
    · intro hstr x hx
      have hx0 := hx
      rw [hsel] at hx
      obtain ⟨hxs, -⟩ := mem_pruneSelection rt _ _ x hx
      obtain ⟨k, rfl⟩ := hstr x hxs
      exact absurd hx (str_not_mem_pruneSelection rt _ _ k)
    · intro k _ _ hx
      rw [hsel] at hx
      exact str_not_mem_pruneSelection rt _ _ k hx

/-- Witness for `selection_within_list_after_load`: keys `"7"` and `"9"` are
selected and the guest listing comes back with user 9 only. -/
theorem selection_within_list_after_load_witness :
    (loadGuestUsers asciiRuntime
        (guestWorld [rawUser (.num (.int 7)) "bob", rawUser (.num (.int 9)) "ann"]
          [.str "7".toList, .str "9".toList])
        (.ok (listingResponse [rawUser (.num (.int 9)) "ann"]))).2 = none ∧
    (∀ x ∈ (loadGuestUsers asciiRuntime
        (guestWorld [rawUser (.num (.int 7)) "bob", rawUser (.num (.int 9)) "ann"]
          [.str "7".toList, .str "9".toList])
        (.ok (listingResponse [rawUser (.num (.int 9)) "ann"]))).1.st.guestSelected,
      ∃ u ∈ (loadGuestUsers asciiRuntime
        (guestWorld [rawUser (.num (.int 7)) "bob", rawUser (.num (.int 9)) "ann"]
          [.str "7".toList, .str "9".toList])
        (.ok (listingResponse [rawUser (.num (.int 9)) "ann"]))).1.st.GUEST_DATA,
        x = JsVal.str (str u.pk)) ∧
    JsVal.str "7".toList ∉ (loadGuestUsers asciiRuntime
        (guestWorld [rawUser (.num (.int 7)) "bob", rawUser (.num (.int 9)) "ann"]
          [.str "7".toList, .str "9".toList])
        (.ok (listingResponse [rawUser (.num (.int 9)) "ann"]))).1.st.guestSelected :=
  ⟨by decide,
   ((selection_within_list_after_load asciiRuntime _ _).1 (by decide)).2.1
     (by
       intro x hx
       simp only [guestWorld, initialState, List.mem_cons, List.mem_singleton,
         List.not_mem_nil, or_false] at hx
       rcases hx with rfl | rfl
       · exact ⟨_, rfl⟩
       · exact ⟨_, rfl⟩),
   ((selection_within_list_after_load asciiRuntime _ _).1 (by decide)).2.2 "7".toList
     (by decide) (by decide)⟩

/-! ## C3: keys of users that are still listed -/

/-- Whatever the listing, a load that completes leaves no string key selected. -/
theorem loadGuestUsers_drops_string_keys (rt : JsRuntime) (w : World)
    (fetched : Except JsError Response) (h : (loadGuestUsers rt w fetched).2 = none)
    (hstr : ∀ x ∈ w.st.guestSelected, ∃ k, x = JsVal.str k) :
    (loadGuestUsers rt w fetched).1.st.guestSelected = [] := by
  rw [List.eq_nil_iff_forall_not_mem]
  intro x hx
  have hsel := loadGuestUsers_selection rt w fetched h
  rw [hsel] at hx
  obtain ⟨hxs, -⟩ := mem_pruneSelection rt _ _ x hx
  obtain ⟨k, rfl⟩ := hstr x hxs
  exact str_not_mem_pruneSelection rt _ _ k hx

/-- C3, at the failing input. Guest 5 is listed; the header checkbox is ticked,
which selects the key `"5"`; the listing is reloaded and still holds guest 5,
whose row key is `"5"`; after the load the selection set is empty. -/
theorem loadGuestUsers_drops_listed_key :
    (selectAllChange asciiRuntime
        { (guestWorld [rawUser (.num (.int 5)) "eve"] []) with
          dom := { blankDom with guestSelectAll := { checked := true, indeterminate := false } } }
        Kind.guest).st.guestSelected = [.str "5".toList] ∧
    (loadGuestUsers asciiRuntime
        (selectAllChange asciiRuntime
          { (guestWorld [rawUser (.num (.int 5)) "eve"] []) with
            dom := { blankDom with guestSelectAll := { checked := true, indeterminate := false } } }
          Kind.guest)
        (.ok (listingResponse [rawUser (.num (.int 5)) "eve"]))).2 = none ∧
    (loadGuestUsers asciiRuntime
        (selectAllChange asciiRuntime
          { (guestWorld [rawUser (.num (.int 5)) "eve"] []) with
            dom := { blankDom with guestSelectAll := { checked := true, indeterminate := false } } }
          Kind.guest)
        (.ok (listingResponse [rawUser (.num (.int 5)) "eve"]))).1.st.GUEST_DATA.map
      (fun u => str u.pk) = ["5".toList] ∧
    (loadGuestUsers asciiRuntime
        (selectAllChange asciiRuntime
          { (guestWorld [rawUser (.num (.int 5)) "eve"] []) with
            dom := { blankDom with guestSelectAll := { checked := true, indeterminate := false } } }
          Kind.guest)
        (.ok (listingResponse [rawUser (.num (.int 5)) "eve"]))).1.st.guestSelected = [] := by
  decide


/-! ## C4: the truncated window of page numbers -/

/-- The pages `left, left + 1, …, right`. -/
theorem pushPages_eq (n : Nat) (p right : Int) (items : List PageItem)
    (hn : (right + 1 - p).toNat = n) :
    pushPages p right items =
      items ++ (List.range n).map (fun (i : Nat) => PageItem.num (p + (i : Int))) := by
  induction n generalizing p items with
  | zero =>
    rw [pushPages]
    have : ¬ p ≤ right := by omega
    simp [this]
  | succ n ih =>
    rw [pushPages]
    have hp : p ≤ right := by omega
    rw [if_pos hp, ih (p + 1) (items ++ [PageItem.num p]) (by omega)]
    rw [List.range_succ_eq_map, List.map_cons, List.map_map, List.append_assoc]
    simp only [List.singleton_append, Nat.cast_zero, add_zero]
    congr 2
    apply List.map_congr_left
    intro i _
    simp only [Function.comp, Nat.succ_eq_add_one, Nat.cast_add, Nat.cast_one]
    congr 1
    ring

/-- The value of `pageNumbersFor` beyond `MAX_FULL_PAGES`, as one expression. -/
theorem pageNumbersFor_eq (pages current : Int) (hp : 7 < pages) :
    pageNumbersFor pages current =
      [PageItem.num 1] ++
      (if max 2 (current - 1) > 2 then [PageItem.ellipsis] else []) ++
      (List.range (min (pages - 1) (current + 1) + 1 - max 2 (current - 1)).toNat).map
        (fun (i : Nat) => PageItem.num (max 2 (current - 1) + (i : Int))) ++
      (if min (pages - 1) (current + 1) < pages - 1 then [PageItem.ellipsis] else []) ++
      [PageItem.num pages] := by
  unfold pageNumbersFor
  have h7 : ¬ pages ≤ MAX_FULL_PAGES := by simp only [MAX_FULL_PAGES]; omega
  rw [if_neg h7]
  simp only []
  rw [pushPages_eq _ _ _ _ rfl]
  split_ifs <;> simp

theorem windowPages_spec (left right : Int) :
    List.Sorted (· < ·) ((List.range (right + 1 - left).toNat).map (fun (i : Nat) => left + (i : Int))) ∧
    ∀ n : Int, n ∈ (List.range (right + 1 - left).toNat).map (fun (i : Nat) => left + (i : Int)) ↔
      left ≤ n ∧ n ≤ right := by
  constructor
  · rw [List.Sorted, List.pairwise_map]
    exact (List.pairwise_lt_range _).imp (by intro a b hab; omega)
  · intro n
    simp only [List.mem_map, List.mem_range]
    constructor
    · rintro ⟨i, hi, rfl⟩
      omega
    · rintro ⟨h1, h2⟩
      exact ⟨(n - left).toNat, by omega, by omega⟩

/-- C4. For `pages > 7` and `1 ≤ current ≤ pages`, `pageNumbersFor(pages, current)`
is: page 1; an ellipsis iff `max(2, current-1) > 2`; the pages from
`max(2, current-1)` to `min(pages-1, current+1)` in increasing order; an
ellipsis iff `min(pages-1, current+1) < pages-1`; page `pages`. For 40 pages
and current page 20 it is `1, …, 19, 20, 21, …, 40`, rendered by `renderPager`
as numbered buttons with page 20 active. -/
theorem pageNumbersFor_window :
    (∀ pages current : Int, 7 < pages → 1 ≤ current → current ≤ pages →
      ∃ window : List Int,
        List.Sorted (· < ·) window ∧
        (∀ n : Int, n ∈ window ↔ max 2 (current - 1) ≤ n ∧ n ≤ min (pages - 1) (current + 1)) ∧
        pageNumbersFor pages current =
          [PageItem.num 1] ++
          (if max 2 (current - 1) > 2 then [PageItem.ellipsis] else []) ++
          window.map PageItem.num ++
          (if min (pages - 1) (current + 1) < pages - 1 then [PageItem.ellipsis] else []) ++
          [PageItem.num pages]) ∧
    pageNumbersFor 40 20 =
      [PageItem.num 1, PageItem.ellipsis, PageItem.num 19, PageItem.num 20, PageItem.num 21,
        PageItem.ellipsis, PageItem.num 40] ∧
    (pagerContent 25 1000 20 40 475 500).map (fun v => v.numbers) =
      some (some [NumberItem.button 1 false, NumberItem.ellipsis, NumberItem.button 19 false,
        NumberItem.button 20 true, NumberItem.button 21 false, NumberItem.ellipsis,
        NumberItem.button 40 false]) := by
  refine ⟨?_, ?_, ?_⟩
  · intro pages current hp _ _
    obtain ⟨hs, hm⟩ := windowPages_spec (max 2 (current - 1)) (min (pages - 1) (current + 1))
    refine ⟨_, hs, hm, ?_⟩
    rw [pageNumbersFor_eq pages current hp, List.map_map]
    rfl
  · rw [pageNumbersFor_eq 40 20 (by decide)]
    decide
  · have h : pageNumbersFor 40 20 =
        [PageItem.num 1, PageItem.ellipsis, PageItem.num 19, PageItem.num 20, PageItem.num 21,
          PageItem.ellipsis, PageItem.num 40] := by
      rw [pageNumbersFor_eq 40 20 (by decide)]
      decide
    simp [pagerContent, h, SIMPLE_NAV_MAX, MAX_FULL_PAGES]

/-- Witness for `pageNumbersFor_window`: 9 pages, current page 1. -/
theorem pageNumbersFor_window_witness :
    ∃ window : List Int,
      List.Sorted (· < ·) window ∧
      (∀ n : Int, n ∈ window ↔ max 2 ((1 : Int) - 1) ≤ n ∧ n ≤ min ((9 : Int) - 1) (1 + 1)) ∧
      pageNumbersFor 9 1 =
        [PageItem.num 1] ++
        (if max 2 ((1 : Int) - 1) > 2 then [PageItem.ellipsis] else []) ++
        window.map PageItem.num ++
        (if min ((9 : Int) - 1) (1 + 1) < 9 - 1 then [PageItem.ellipsis] else []) ++
        [PageItem.num 9] :=
  pageNumbersFor_window.1 9 1 (by decide) (by decide) (by decide)


/-! ## C5: filtering -/

theorem includes_correct (hay needle : JsString) :
    includes hay needle = true ↔ needle <:+: hay := by
  induction hay with
  | nil => simp [includes, List.isEmpty_iff]
  | cons c cs ih =>
    rw [includes, Bool.or_eq_true, ih, List.infix_cons_iff, List.isPrefixOf_iff_prefix]

theorem str_eq_fieldText (v : JsVal) :
    str v = if v = JsVal.undefined ∨ v = JsVal.null then [] else jsString v := by
  cases v <;> simp [str, nullish, jsString]

/-- C5. `filterUsers(list, q)` returns the list itself when `q` is absent or
trims to the empty string; otherwise it returns the records of the list, in
their order, for which the trimmed, lower-cased query is a substring of the
lower-cased string form of `pk`, `username` or `email`, an absent or `null`
field counting as the empty string. -/
theorem filterUsers_spec (rt : JsRuntime) (hlow : rt.toLowerCase [] = [])
    (list : List User) (q : Option JsString) :
    filterUsers rt list none = list ∧
    (jsTrim (q.getD []) = [] → filterUsers rt list q = list) ∧
    (jsTrim (q.getD []) ≠ [] →
      ∃ keep : User → Bool,
        (∀ u, keep u = true ↔
          ∃ v ∈ [u.pk, u.username, u.email],
            rt.toLowerCase (jsTrim (q.getD [])) <:+:
              rt.toLowerCase (if v = JsVal.undefined ∨ v = JsVal.null then [] else jsString v)) ∧
        filterUsers rt list q = list.filter keep) := by
  refine ⟨?_, ?_, ?_⟩
  · have : jsTrim [] = [] := rfl
    simp [filterUsers, this, hlow]
  · intro h
    simp [filterUsers, h, hlow]
  · intro _
    refine ⟨fun u => [u.pk, u.username, u.email].any
      (fun v => includes (rt.toLowerCase (str v)) (rt.toLowerCase (jsTrim (q.getD [])))), ?_, ?_⟩
    · intro u
      rw [List.any_eq_true]
      constructor
      · rintro ⟨v, hv, hinc⟩
        refine ⟨v, hv, ?_⟩
        rw [← str_eq_fieldText]
        exact (includes_correct _ _).1 hinc
      · rintro ⟨v, hv, hinf⟩
        refine ⟨v, hv, ?_⟩
        rw [← str_eq_fieldText] at hinf
        exact (includes_correct _ _).2 hinf
    · unfold filterUsers
      simp only []
      split_ifs with hempty
      · have hnil : rt.toLowerCase (jsTrim (q.getD [])) = [] := List.isEmpty_iff.1 hempty
        symm
        rw [List.filter_eq_self]
        intro u _
        rw [hnil]
        cases hs : rt.toLowerCase (str u.pk) <;> simp [includes, hs]
      · rfl

/-- Witness for `filterUsers_spec`: three guests filtered by the query `" An "`. -/
theorem filterUsers_spec_witness :
    asciiRuntime.toLowerCase [] = [] ∧
    jsTrim ((some " An ".toList).getD []) ≠ [] ∧
    filterUsers asciiRuntime
      (guestWorld [rawUser (.num (.int 7)) "Bob", rawUser (.num (.int 9)) "ANN",
        rawUser .null "Dan"] []).st.GUEST_DATA none =
      (guestWorld [rawUser (.num (.int 7)) "Bob", rawUser (.num (.int 9)) "ANN",
        rawUser .null "Dan"] []).st.GUEST_DATA ∧
    ∃ keep : User → Bool,
      (∀ u, keep u = true ↔
        ∃ v ∈ [u.pk, u.username, u.email],
          asciiRuntime.toLowerCase (jsTrim ((some " An ".toList).getD [])) <:+:
            asciiRuntime.toLowerCase
              (if v = JsVal.undefined ∨ v = JsVal.null then [] else jsString v)) ∧
      filterUsers asciiRuntime
        (guestWorld [rawUser (.num (.int 7)) "Bob", rawUser (.num (.int 9)) "ANN",
          rawUser .null "Dan"] []).st.GUEST_DATA (some " An ".toList) =
        (guestWorld [rawUser (.num (.int 7)) "Bob", rawUser (.num (.int 9)) "ANN",
          rawUser .null "Dan"] []).st.GUEST_DATA.filter keep :=
  ⟨rfl, by decide,
    (filterUsers_spec asciiRuntime rfl _ (some " An ".toList)).1,
    (filterUsers_spec asciiRuntime rfl _ (some " An ".toList)).2.2 (by decide)⟩


/-! ## C6: the header checkbox -/

/-- The `checked` value is as specified, and so is `indeterminate` when every
visible record has a `pk`. -/
theorem headerState_spec (set : List JsVal) (visible : List User) :
    ((headerState set visible).checked = true ↔
      visible ≠ [] ∧ ∀ u ∈ visible, JsVal.str (str u.pk) ∈ set) ∧
    ((∀ u ∈ visible, u.pk ≠ JsVal.undefined ∧ u.pk ≠ JsVal.null) →
      ((headerState set visible).indeterminate = true ↔
        (∃ u ∈ visible, JsVal.str (str u.pk) ∈ set) ∧
        (∃ u ∈ visible, JsVal.str (str u.pk) ∉ set))) := by
  have hlen : visible.length > 0 ↔ visible ≠ [] := by
    rw [gt_iff_lt, List.length_pos]
  constructor
  · simp [headerState, setHas, hlen]
  · intro hpk
    have hkey : ∀ u ∈ visible, jsString u.pk = str u.pk := by
      intro u hu
      obtain ⟨h1, h2⟩ := hpk u hu
      cases hp : u.pk <;> simp_all [str, nullish]
    have hall : visible.all (fun u => setHas set (.str (str u.pk))) = true ↔
        ∀ u ∈ visible, JsVal.str (str u.pk) ∈ set := by
      simp [setHas_iff]
    have hany : visible.any (fun u => setHas set (.str (jsString u.pk))) = true ↔
        ∃ u ∈ visible, JsVal.str (str u.pk) ∈ set := by
      rw [List.any_eq_true]
      constructor
      · rintro ⟨u, hu, hmem⟩
        exact ⟨u, hu, by rw [← hkey u hu]; exact (setHas_iff _ _).1 hmem⟩
      · rintro ⟨u, hu, hmem⟩
        exact ⟨u, hu, by rw [hkey u hu]; exact (setHas_iff _ _).2 hmem⟩
    simp only [headerState, Bool.and_eq_true, decide_eq_true_eq, Bool.not_eq_true_eq_eq_false,
      Bool.and_eq_false_iff, Bool.not_eq_eq_eq_not, Bool.not_true, decide_eq_false_iff_not,
      hany, hlen]
    rw [← Bool.not_eq_true, hall]
    constructor
    · rintro ⟨⟨hne, hnot⟩, hex⟩
      refine ⟨hex, ?_⟩
      rcases hnot with hnot | hnot
      · exact absurd hne hnot
      · push_neg at hnot
        exact hnot
    · rintro ⟨⟨u, hu, hmem⟩, x, hx, hxn⟩
      refine ⟨⟨List.ne_nil_of_mem hu, Or.inr ?_⟩, u, hu, hmem⟩
      push_neg
      exact ⟨x, hx, hxn⟩

/-- C6, at the failing input. Two guests are visible, the first without a `pk`;
its row checkbox (key `""`) is ticked. The first row is rendered checked and
the second unchecked, and the header checkbox is set to not checked and not
indeterminate. -/
theorem header_not_indeterminate_without_pk :
    (rowSelectClick asciiRuntime
        (guestWorld [rawUser .null "amy", rawUser (.num (.int 2)) "bob"] [])
        Kind.guest [] true).st.guestSelected = [.str []] ∧
    (rowSelectClick asciiRuntime
        (guestWorld [rawUser .null "amy", rawUser (.num (.int 2)) "bob"] [])
        Kind.guest [] true).dom.guestRows.map (fun r => (r.key, r.checked)) =
      [([], true), ("2".toList, false)] ∧
    (rowSelectClick asciiRuntime
        (guestWorld [rawUser .null "amy", rawUser (.num (.int 2)) "bob"] [])
        Kind.guest [] true).dom.guestSelectAll =
      { checked := false, indeterminate := false } := by
  decide


/-! ## C7 and C8: the HTTP helper -/

/-- C7. For a response whose content-type does not contain `application/json`,
`apiFetch` never calls `res.json()`; when the response was redirected, or its
URL contains `/login`, or its status is 401 or 303, it assigns `/login` to the
location and rejects with `redirected to login`; otherwise it rejects with
`unexpected response <status>` and does not navigate. -/
theorem apiFetch_not_json (res : Response)
    (hct : ¬ "application/json".toList <:+: res.contentType.getD []) :
    Effect.readJson ∉ (apiFetch (.ok res)).effects ∧
    ((res.redirected = true ∨ "/login".toList <:+: res.url ∨ res.status = 401 ∨ res.status = 303) →
      (apiFetch (.ok res)).result = .error (newError "redirected to login".toList) ∧
      (apiFetch (.ok res)).effects = [Effect.navigate "/login".toList]) ∧
    (¬ (res.redirected = true ∨ "/login".toList <:+: res.url ∨ res.status = 401 ∨
        res.status = 303) →
      (apiFetch (.ok res)).result =
        .error (newError ("unexpected response ".toList ++ intToJsString res.status)) ∧
      (apiFetch (.ok res)).effects = []) := by
  have hinc : includes (res.contentType.getD []) "application/json".toList = false := by
    rw [← Bool.not_eq_true, includes_correct]
    exact hct
  have hlogin : (res.redirected || (!res.url.isEmpty && includes res.url "/login".toList) ||
      res.status == 401 || res.status == 303) = true ↔
      (res.redirected = true ∨ "/login".toList <:+: res.url ∨ res.status = 401 ∨
        res.status = 303) := by
    simp only [Bool.or_eq_true, Bool.and_eq_true, Bool.not_eq_true_eq_eq_false, beq_iff_eq,
      includes_correct, or_assoc]
    constructor
    · rintro (h | ⟨-, h⟩ | h | h)
      · exact Or.inl h
      · exact Or.inr (Or.inl h)
      · exact Or.inr (Or.inr (Or.inl h))
      · exact Or.inr (Or.inr (Or.inr h))
    · rintro (h | h | h | h)
      · exact Or.inl h
      · refine Or.inr (Or.inl ⟨?_, h⟩)
        cases hu : res.url with
        | nil => rw [hu] at h; simp at h
        | cons c cs => rfl
      · exact Or.inr (Or.inr (Or.inl h))
      · exact Or.inr (Or.inr (Or.inr h))
  by_cases hl : (res.redirected = true ∨ "/login".toList <:+: res.url ∨ res.status = 401 ∨
      res.status = 303)
  · have hb := hlogin.2 hl
    have hval : apiFetch (.ok res) =
        { result := .error (newError "redirected to login".toList),
          effects := [Effect.navigate "/login".toList] } := by
      simp only [apiFetch, hinc, Bool.not_false, if_true, hb]
    rw [hval]
    exact ⟨by simp, fun _ => ⟨rfl, rfl⟩, fun h => absurd hl h⟩
  · have hb : (res.redirected || (!res.url.isEmpty && includes res.url "/login".toList) ||
        res.status == 401 || res.status == 303) = false := by
      rw [← Bool.not_eq_true, hlogin]
      exact hl
    have hval : apiFetch (.ok res) =
        { result := .error (newError ("unexpected response ".toList ++ intToJsString res.status)),
          effects := [] } := by
      simp only [apiFetch, hinc, Bool.not_false, if_true, hb, Bool.false_eq_true, if_false]
    rw [hval]
    exact ⟨by simp, fun h => absurd h hl, fun _ => ⟨rfl, rfl⟩⟩

/-- Witness for `apiFetch_not_json`: an HTML answer with status 401, and an
HTML answer with status 500. -/
theorem apiFetch_not_json_witness :
    ((apiFetch (.ok (htmlResponse 401))).result =
      .error (newError "redirected to login".toList) ∧
     (apiFetch (.ok (htmlResponse 401))).effects =
      [Effect.navigate "/login".toList]) ∧
    ((apiFetch (.ok (htmlResponse 500))).result =
      .error (newError ("unexpected response ".toList ++ intToJsString 500)) ∧
     (apiFetch (.ok (htmlResponse 500))).effects = []) :=
  ⟨(apiFetch_not_json (htmlResponse 401) (by decide)).2.1
      (Or.inr (Or.inr (Or.inl rfl))),
   (apiFetch_not_json (htmlResponse 500) (by decide)).2.2 (by decide)⟩

/-- C8 as stated fails: a 500 answer with body `{detail: "", error: "boom"}` has
`detail` as its first present field, so the stated message is the empty
string, while `apiFetch` rejects with the message `boom`. -/
theorem apiFetch_message_not_first_present :
    firstPresent (.object { emptyObject with detail := .str [], error := .str "boom".toList }) =
      some (.str []) ∧
    specErrorMessage 500
      (.object { emptyObject with detail := .str [], error := .str "boom".toList }) = [] ∧
    (apiFetch (.ok (jsonResponse 500
      (.object { emptyObject with detail := .str [], error := .str "boom".toList })))).result =
      .error { name := "Error".toList, message := "boom".toList, status := some 500,
               body := some (.object
                 { emptyObject with detail := .str [], error := .str "boom".toList }) } ∧
    "boom".toList ≠
      specErrorMessage 500
        (.object { emptyObject with detail := .str [], error := .str "boom".toList }) := by
  refine ⟨by decide, by decide, rfl, by decide⟩

/-- C8, amended. For a JSON response whose body parses: with a failing status
`apiFetch` rejects with an error whose message is the first truthy of the
body's `detail`, `error` and `message` fields as a string, or `http <status>`
when none is truthy, and whose `status` and `body` are the response status and
the parsed body; with a successful status it resolves with the parsed body. -/
theorem apiFetch_json (res : Response) (body : Body)
    (hct : "application/json".toList <:+: res.contentType.getD [])
    (hjson : res.json = some body) :
    (¬ (200 ≤ res.status ∧ res.status ≤ 299) →
      (apiFetch (.ok res)).result =
        .error { name := "Error".toList,
                 message := (match firstTruthy body with
                   | some v => jsString v
                   | none => "http ".toList ++ intToJsString res.status),
                 status := some res.status,
                 body := some body }) ∧
    (200 ≤ res.status ∧ res.status ≤ 299 → (apiFetch (.ok res)).result = .ok body) := by
  have hinc : includes (res.contentType.getD []) "application/json".toList = true :=
    (includes_correct _ _).2 hct
  have hok : res.ok = true ↔ (200 ≤ res.status ∧ res.status ≤ 299) := by
    simp [Response.ok]
  constructor
  · intro hfail
    have hnok : res.ok = false := by
      rw [← Bool.not_eq_true, hok]
      exact hfail
    simp only [apiFetch, hinc, hjson, hnok, Bool.not_true, Bool.false_eq_true, if_false,
      Bool.not_false, if_true, newError]
    congr 2
    cases body with
    | scalar v =>
      have hu : truthy JsVal.undefined = false := rfl
      by_cases hv : truthy v = true
      · simp only [hv, if_true, hu, Bool.false_eq_true, if_false, firstTruthy]
      · simp only [hv, Bool.false_eq_true, if_false, firstTruthy]
    | object o =>
      simp only [firstTruthy, jsOr, List.find?]
      by_cases h1 : truthy o.detail = true
      · simp [h1]
      · by_cases h2 : truthy o.error = true
        · simp [h1, h2]
        · by_cases h3 : truthy o.message = true
          · simp [h1, h2, h3]
          · simp [h1, h2, h3]
  · intro hgood
    have hisok : res.ok = true := hok.2 hgood
    simp only [apiFetch, hinc, hjson, hisok, Bool.not_true, Bool.false_eq_true, if_false]

/-- Witness for `apiFetch_json`: the 500 answer `{detail: "", error: "boom"}` and
a 200 listing. -/
theorem apiFetch_json_witness :
    (apiFetch (.ok (jsonResponse 500
      (.object { emptyObject with detail := .str [], error := .str "boom".toList })))).result =
      .error { name := "Error".toList,
               message := (match firstTruthy
                   (.object { emptyObject with detail := .str [], error := .str "boom".toList }) with
                 | some v => jsString v
                 | none => "http ".toList ++ intToJsString 500),
               status := some 500,
               body := some (.object
                 { emptyObject with detail := .str [], error := .str "boom".toList }) } ∧
    (apiFetch (.ok (listingResponse []))).result =
      .ok (.object { emptyObject with users := some [] }) :=
  ⟨(apiFetch_json (jsonResponse 500
      (.object { emptyObject with detail := .str [], error := .str "boom".toList })) _
      (by decide) rfl).1 (by decide),
   (apiFetch_json (listingResponse []) _ (by decide) rfl).2 (by decide)⟩


/-! ## C9: what a handler shows when its request fails -/

theorem refreshTable_statusOf (rt : JsRuntime) (w : World) (k kind : Kind) :
    statusOf (refreshTable rt w k) kind = statusOf w kind := by
  cases k <;> cases kind <;>
    simp [refreshTable, updateBulkButtons, statusOf, updateHeaderSelectAll, renderPager,
      renderTable]

theorem refreshTable_bulkButtonOf (rt : JsRuntime) (w : World) (k kind : Kind) :
    bulkButtonOf (refreshTable rt w k) kind =
      { disabled := (selectedOf w kind).length == 0, hidden := (selectedOf w kind).length == 0 } := by
  cases k <;> cases kind <;>
    simp [refreshTable, updateBulkButtons, bulkButtonOf, selectedOf, updateHeaderSelectAll,
      renderPager, renderTable]

theorem refreshTable_selectedOf (rt : JsRuntime) (w : World) (k kind : Kind) :
    selectedOf (refreshTable rt w k) kind = selectedOf w kind := by
  cases k <;> cases kind <;>
    simp [refreshTable, updateBulkButtons, selectedOf, updateHeaderSelectAll, renderPager,
      renderTable]

theorem foldl_applyEffects_st (outcomes : List ApiOutcome) (w : World) :
    (outcomes.foldl (fun w o => applyEffects w o.effects) w).st = w.st := by
  induction outcomes generalizing w with
  | nil => rfl
  | cons o os ih => rw [List.foldl_cons, ih, applyEffects_st]

theorem applyEffects_status (w : World) (effects : List Effect) (kind : Kind) :
    statusOf (applyEffects w effects) kind = statusOf w kind := by
  unfold applyEffects
  induction effects generalizing w with
  | nil => rfl
  | cons e es ih =>
    rw [List.foldl_cons, ih]
    cases e <;> cases kind <;> rfl

theorem errorText_of_message (err : JsError) (h : err.message ≠ []) :
    errorText err = err.message := by
  unfold errorText
  cases hm : err.message with
  | nil => exact absurd hm h
  | cons c cs => rfl

/-- The bulk handlers on a failed batch. -/
theorem bulkClick_failure (rt : JsRuntime) (kind : Kind) (w : World)
    (respond : JsVal → Except JsError Response)
    (guestFetch membersFetch : Except JsError Response) (err : JsError)
    (h : firstRejection ((selectedOf w kind).map (fun pk => apiFetch (respond pk))) = some err) :
    statusOf (bulkClick rt kind w respond guestFetch membersFetch) kind =
      "error: ".toList ++ errorText err ∧
    (bulkButtonOf (bulkClick rt kind w respond guestFetch membersFetch) kind).disabled = false := by
  have hne : (selectedOf w kind).length ≠ 0 := by
    intro h0
    rw [List.length_eq_zero] at h0
    rw [h0] at h
    simp [firstRejection] at h
  cases kind with
  | guest =>
    have hsel : selectedOf w Kind.guest = w.st.guestSelected := rfl
    rw [hsel] at h hne
    unfold bulkClick
    simp only [beq_self_eq_true, if_true, beq_iff_eq, hne, if_false, h]
    rw [refreshTable_statusOf, refreshTable_statusOf, refreshTable_bulkButtonOf,
      refreshTable_selectedOf]
    refine ⟨rfl, ?_⟩
    simp [selectedOf, foldl_applyEffects_st, hne]
  | members =>
    have hsel : selectedOf w Kind.members = w.st.memberSelected := rfl
    rw [hsel] at h hne
    unfold bulkClick
    have hk : (Kind.members == Kind.guest) = false := rfl
    simp only [hk, Bool.false_eq_true, if_false, beq_iff_eq, hne, h]
    rw [refreshTable_statusOf, refreshTable_statusOf, refreshTable_bulkButtonOf,
      refreshTable_selectedOf]
    refine ⟨rfl, ?_⟩
    simp [selectedOf, foldl_applyEffects_st, hne]


/-- The single-row handler on a failed request. -/
theorem actionClick_failure (rt : JsRuntime) (w : World) (btn : ActionButton)
    (fetched guestFetch membersFetch : Except JsError Response) (err : JsError)
    (h : (apiFetch fetched).result = .error err) :
    statusOf (actionClick rt w btn fetched guestFetch membersFetch).1
        (if btn.action = Action.promote then Kind.guest else Kind.members) =
      "error: ".toList ++ errorText err := by
  unfold actionClick
  simp only [h]
  cases hb : btn.action <;> simp [statusOf]

/-- The invite handler on a failed request. -/
theorem inviteClick_failure (w : World) (fetched : Except JsError Response) (err : JsError)
    (h : (apiFetch fetched).result = .error err) :
    (inviteClick w fetched).dom.inviteStatus = "failed".toList ∧
    (inviteClick w fetched).dom.inviteResult = InviteResult.text (errorText err) := by
  unfold inviteClick
  simp [h]

/-- C9 as stated fails for invite creation: the request is answered 500 with
`{detail: "boom"}`, `apiFetch` rejects with the message `boom`, and the handler
leaves the status text `failed`, not `error: boom` (the message goes to the
result element). -/
theorem inviteClick_status_not_error_message :
    (apiFetch (.ok (jsonResponse 500
      (.object { emptyObject with detail := .str "boom".toList })))).result =
      .error { name := "Error".toList, message := "boom".toList, status := some 500,
               body := some (.object { emptyObject with detail := .str "boom".toList }) } ∧
    (inviteClick { st := initialState 50 50, dom := blankDom }
      (.ok (jsonResponse 500
        (.object { emptyObject with detail := .str "boom".toList })))).dom.inviteStatus =
      "failed".toList ∧
    (inviteClick { st := initialState 50 50, dom := blankDom }
      (.ok (jsonResponse 500
        (.object { emptyObject with detail := .str "boom".toList })))).dom.inviteStatus ≠
      "error: boom".toList ∧
    (inviteClick { st := initialState 50 50, dom := blankDom }
      (.ok (jsonResponse 500
        (.object { emptyObject with detail := .str "boom".toList })))).dom.inviteResult =
      InviteResult.text "boom".toList := by
  refine ⟨rfl, by decide, by decide, by decide⟩

/-- C9, amended. When a request of a bulk promote or bulk demote fails with
error `err`, the handler finishes with the cohort's status text `error: `
followed by the error text and with the bulk button not disabled; when the
request of a single-row promote or demote fails, the status text (guests for
promote, members for demote) is `error: ` followed by the error text; when the
invite request fails, the invite status text is `failed` and the invite result
is the error text. The error text is the error's message when it has one. -/
theorem action_failure_reported (rt : JsRuntime) (w : World) (err : JsError) :
    (∀ (kind : Kind) (respond : JsVal → Except JsError Response)
        (guestFetch membersFetch : Except JsError Response),
      firstRejection ((selectedOf w kind).map (fun pk => apiFetch (respond pk))) = some err →
      statusOf (bulkClick rt kind w respond guestFetch membersFetch) kind =
        "error: ".toList ++ errorText err ∧
      (bulkButtonOf (bulkClick rt kind w respond guestFetch membersFetch) kind).disabled = false) ∧
    (∀ (btn : ActionButton) (fetched guestFetch membersFetch : Except JsError Response),
      (apiFetch fetched).result = .error err →
      statusOf (actionClick rt w btn fetched guestFetch membersFetch).1
          (if btn.action = Action.promote then Kind.guest else Kind.members) =
        "error: ".toList ++ errorText err) ∧
    (∀ (fetched : Except JsError Response),
      (apiFetch fetched).result = .error err →
      (inviteClick w fetched).dom.inviteStatus = "failed".toList ∧
      (inviteClick w fetched).dom.inviteResult = InviteResult.text (errorText err)) ∧
    (err.message ≠ [] → errorText err = err.message) :=
  ⟨fun kind respond guestFetch membersFetch h =>
      bulkClick_failure rt kind w respond guestFetch membersFetch err h,
   fun btn fetched guestFetch membersFetch h =>
      actionClick_failure rt w btn fetched guestFetch membersFetch err h,
   fun fetched h => inviteClick_failure w fetched err h,
   errorText_of_message err⟩

/-- Witness for `action_failure_reported`: guest 5 is selected and every request
is answered 500 with `{detail: "boom"}`. -/
theorem action_failure_reported_witness :
    (statusOf (bulkClick asciiRuntime Kind.guest
        (guestWorld [rawUser (.num (.int 5)) "eve"] [.str "5".toList])
        (fun _ => .ok (jsonResponse 500 (.object { emptyObject with detail := .str "boom".toList })))
        (.ok (listingResponse [])) (.ok (listingResponse []))) Kind.guest =
      "error: ".toList ++ errorText (boomError) ∧
     (bulkButtonOf (bulkClick asciiRuntime Kind.guest
        (guestWorld [rawUser (.num (.int 5)) "eve"] [.str "5".toList])
        (fun _ => .ok (jsonResponse 500 (.object { emptyObject with detail := .str "boom".toList })))
        (.ok (listingResponse [])) (.ok (listingResponse []))) Kind.guest).disabled = false) ∧
    statusOf (actionClick asciiRuntime
        (guestWorld [rawUser (.num (.int 5)) "eve"] [.str "5".toList])
        { action := Action.promote, pk := "5".toList, disabled := false, text := "Promote".toList }
        (.ok (jsonResponse 500 (.object { emptyObject with detail := .str "boom".toList })))
        (.ok (listingResponse [])) (.ok (listingResponse []))).1
      (if Action.promote = Action.promote then Kind.guest else Kind.members) =
      "error: ".toList ++ errorText boomError ∧
    ((inviteClick (guestWorld [rawUser (.num (.int 5)) "eve"] [.str "5".toList])
        (.ok (jsonResponse 500
          (.object { emptyObject with detail := .str "boom".toList })))).dom.inviteStatus =
      "failed".toList ∧
     (inviteClick (guestWorld [rawUser (.num (.int 5)) "eve"] [.str "5".toList])
        (.ok (jsonResponse 500
          (.object { emptyObject with detail := .str "boom".toList })))).dom.inviteResult =
      InviteResult.text (errorText boomError)) ∧
    errorText boomError = "boom".toList :=
  ⟨(action_failure_reported asciiRuntime _ boomError).1 Kind.guest _ _ _ (by decide),
   (action_failure_reported asciiRuntime _ boomError).2.1
     { action := Action.promote, pk := "5".toList, disabled := false, text := "Promote".toList }
     _ _ _ rfl,
   (action_failure_reported asciiRuntime _ boomError).2.2.1 _ rfl,
   (action_failure_reported asciiRuntime
     (guestWorld [rawUser (.num (.int 5)) "eve"] [.str "5".toList]) boomError).2.2.2 (by decide)⟩


/-- The clicked row button after a failed request: labelled `Error`, still disabled. -/
theorem actionClick_failure_button (rt : JsRuntime) (w : World) (btn : ActionButton)
    (fetched guestFetch membersFetch : Except JsError Response) (err : JsError)
    (h : (apiFetch fetched).result = .error err) :
    (actionClick rt w btn fetched guestFetch membersFetch).2.disabled = true ∧
    (actionClick rt w btn fetched guestFetch membersFetch).2.text = "Error".toList := by
  unfold actionClick
  simp [h]

/-! ## C10: the pager -/

theorem renderPager_pagerOf (w : World) (kind : Kind) (filteredTotal : Nat)
    (page pages start end_ : Int) :
    pagerOf (renderPager w kind filteredTotal page pages start end_) kind =
      pagerContent (pageSizeOf w kind) filteredTotal page pages start end_ := by
  cases kind <;> rfl

theorem arrayFromLength_spec (n : Int) :
    List.Sorted (· < ·) (arrayFromLength n) ∧
    ∀ k : Int, k ∈ arrayFromLength n ↔ 1 ≤ k ∧ k ≤ n := by
  unfold arrayFromLength
  constructor
  · rw [List.Sorted, List.pairwise_map]
    exact (List.pairwise_lt_range _).imp (by intro a b hab; omega)
  · intro k
    simp only [List.mem_map, List.mem_range]
    constructor
    · rintro ⟨i, hi, rfl⟩
      omega
    · rintro ⟨h1, h2⟩
      exact ⟨(k - 1).toNat, by omega, by omega⟩

set_option maxRecDepth 1000000 in
/-- A refresh with 150 guests at page size 50: rows 1 to 50 are shown, the count
reads 1–50 of 150 and the numbered buttons are 1, 2, 3 with 1 active. -/
theorem refreshTable_150_guests :
    (pagerOf (refreshTable asciiRuntime
      (guestWorld ((List.range 150).map (fun (i : Nat) => rawUser (.num (.int i)) "u")) [])
      Kind.guest) Kind.guest).map (fun v => (v.countFrom, v.countTo, v.countTotal, v.numbers)) =
      some (1, 50, 150, some [NumberItem.button 1 true, NumberItem.button 2 false,
        NumberItem.button 3 false]) := by
  decide

/-- C10. `renderPager` empties the pager when `filteredTotal ≤ pageSize`, so for
0 users. Otherwise it renders first/prev/next/last with no numbered buttons
when `pages ≤ 2`; when `3 ≤ pages ≤ 7` it renders one numbered button for each
of the pages `1..pages`, in increasing order, without ellipsis, a button being
active exactly when its number is the current page; first/prev are disabled
iff `page ≤ 1` and next/last iff `page ≥ pages`. With 150 users and page size
50 the numbers are 1, 2, 3. -/
theorem renderPager_spec (w : World) (kind : Kind) (filteredTotal : Nat)
    (page pages start end_ : Int) :
    (filteredTotal ≤ pageSizeOf w kind →
      pagerOf (renderPager w kind filteredTotal page pages start end_) kind = none) ∧
    pagerOf (renderPager w kind 0 page pages start end_) kind = none ∧
    (pageSizeOf w kind < filteredTotal →
      ∃ v : PagerView,
        pagerOf (renderPager w kind filteredTotal page pages start end_) kind = some v ∧
        (pages ≤ 2 → v.numbers = none) ∧
        (3 ≤ pages → pages ≤ 7 →
          ∃ ns : List Int,
            List.Sorted (· < ·) ns ∧ (∀ k : Int, k ∈ ns ↔ 1 ≤ k ∧ k ≤ pages) ∧
            v.numbers = some (ns.map (fun n => NumberItem.button n (decide (n = page))))) ∧
        (v.first.disabled = true ↔ page ≤ 1) ∧ (v.prev.disabled = true ↔ page ≤ 1) ∧
        (v.next.disabled = true ↔ page ≥ pages) ∧ (v.last.disabled = true ↔ page ≥ pages)) ∧
    ((pagerContent 50 150 1 3 0 50).map (fun v => v.numbers) =
      some (some [NumberItem.button 1 true, NumberItem.button 2 false,
        NumberItem.button 3 false])) ∧
    ((pagerOf (refreshTable asciiRuntime
      (guestWorld ((List.range 150).map (fun (i : Nat) => rawUser (.num (.int i)) "u")) [])
      Kind.guest) Kind.guest).map (fun v => (v.countFrom, v.countTo, v.countTotal, v.numbers)) =
      some (1, 50, 150, some [NumberItem.button 1 true, NumberItem.button 2 false,
        NumberItem.button 3 false])) := by
  rw [renderPager_pagerOf, renderPager_pagerOf]
  refine ⟨?_, ?_, ?_, by decide, refreshTable_150_guests⟩
  · intro h
    simp [pagerContent, h]
  · simp [pagerContent]
  · intro h
    have hn : ¬ filteredTotal ≤ pageSizeOf w kind := by omega
    unfold pagerContent
    rw [if_neg hn]
    refine ⟨_, rfl, ?_, ?_, ?_, ?_, ?_, ?_⟩
    · intro hp
      simp [SIMPLE_NAV_MAX, hp]
    · intro h3 h7
      obtain ⟨hs, hm⟩ := arrayFromLength_spec pages
      refine ⟨arrayFromLength pages, hs, hm, ?_⟩
      have h2 : ¬ pages ≤ SIMPLE_NAV_MAX := by simp only [SIMPLE_NAV_MAX]; omega
      have h7b : pages ≤ MAX_FULL_PAGES := by simp only [MAX_FULL_PAGES]; exact h7
      simp only [h2, if_false, h7b, if_true]
      congr 1
    · simp
    · simp
    · simp
    · simp

/-- Witness for `renderPager_spec`: 150 filtered guests at page size 50, page 1 of 3. -/
theorem renderPager_spec_witness :
    ∃ v : PagerView,
      pagerOf (renderPager { st := initialState 50 50, dom := blankDom } Kind.guest 150 1 3 0 50)
        Kind.guest = some v ∧
      ((3 : Int) ≤ 2 → v.numbers = none) ∧
      ((3 : Int) ≤ 3 → (3 : Int) ≤ 7 →
        ∃ ns : List Int,
          List.Sorted (· < ·) ns ∧ (∀ k : Int, k ∈ ns ↔ 1 ≤ k ∧ k ≤ 3) ∧
          v.numbers = some (ns.map (fun n => NumberItem.button n (decide (n = 1))))) ∧
      (v.first.disabled = true ↔ (1 : Int) ≤ 1) ∧ (v.prev.disabled = true ↔ (1 : Int) ≤ 1) ∧
      (v.next.disabled = true ↔ (1 : Int) ≥ 3) ∧ (v.last.disabled = true ↔ (1 : Int) ≥ 3) :=
  (renderPager_spec { st := initialState 50 50, dom := blankDom } Kind.guest 150 1 3 0 50).2.2.1
    (by decide)


/-! ## C11: filtering twice -/

/-- C11. Filtering is idempotent: for every list of user records and every
query `q`, `filterUsers(filterUsers(list, q), q)` equals `filterUsers(list, q)`. -/
theorem filterUsers_idempotent (rt : JsRuntime) (list : List User) (q : Option JsString) :
    filterUsers rt (filterUsers rt list q) q = filterUsers rt list q := by
  unfold filterUsers
  simp only []
  split_ifs with h
  · rfl
  · rw [List.filter_filter]
    apply List.filter_congr
    intro u _
    simp

/-- Sample filtering: the query `" An "` keeps ANN and Dan, and filtering the
result again with the same query changes nothing. -/
theorem filterUsers_samples :
    (filterUsers asciiRuntime
      (guestWorld [rawUser (.num (.int 7)) "Bob", rawUser (.num (.int 9)) "ANN",
        rawUser .null "Dan"] []).st.GUEST_DATA (some " An ".toList)).map (fun u => u.username) =
      [.str "ANN".toList, .str "Dan".toList] ∧
    (filterUsers asciiRuntime
      (filterUsers asciiRuntime
        (guestWorld [rawUser (.num (.int 7)) "Bob", rawUser (.num (.int 9)) "ANN",
          rawUser .null "Dan"] []).st.GUEST_DATA (some " An ".toList))
      (some " An ".toList)).map (fun u => u.username) =
      [.str "ANN".toList, .str "Dan".toList] := by
  decide


/-! ## C12: reading the stored page size -/

/-- C12. `loadSize(key, fallback)` never throws; it returns the stored value as a
number when that value parses as a finite number greater than 0, and
`fallback` in every other case: no stored value, a value that does not parse,
zero, a negative number, an infinity, or a storage access that throws. -/
theorem loadSize_spec (numberOfString : JsString → JsNumber) (storage : Storage)
    (key : JsString) (fallback : JsNumber) :
    (∃ v, loadSize numberOfString storage key fallback = .ok v) ∧
    (∀ s q, storage.getItem key = .ok (some s) → numberOfString s = .finite q → 0 < q →
      loadSize numberOfString storage key fallback = .ok (.finite q)) ∧
    ((¬ ∃ s q, storage.getItem key = .ok (some s) ∧ numberOfString s = .finite q ∧ 0 < q) →
      loadSize numberOfString storage key fallback = .ok fallback) ∧
    (storage.getItem key = .ok none →
      loadSize numberOfString storage key fallback = .ok fallback) ∧
    (∀ err, storage.getItem key = .error err →
      loadSize numberOfString storage key fallback = .ok fallback) ∧
    (∀ s, storage.getItem key = .ok (some s) → numberOfString s = .nan →
      loadSize numberOfString storage key fallback = .ok fallback) ∧
    (∀ s negative, storage.getItem key = .ok (some s) →
      numberOfString s = .infinity negative →
      loadSize numberOfString storage key fallback = .ok fallback) ∧
    (∀ s q, storage.getItem key = .ok (some s) → numberOfString s = .finite q → q ≤ 0 →
      loadSize numberOfString storage key fallback = .ok fallback) := by
  refine ⟨?_, ?_, ?_, ?_, ?_, ?_, ?_, ?_⟩
  · unfold loadSize
    cases storage.getItem key with
    | error e => exact ⟨_, rfl⟩
    | ok raw => exact ⟨_, rfl⟩
  · intro s q hget hnum hq
    simp [loadSize, hget, numberOfStored, hnum, JsNumber.isFinite, JsNumber.gtZero, hq]
  · intro hno
    unfold loadSize
    cases hget : storage.getItem key with
    | error e => rfl
    | ok raw =>
      cases raw with
      | none => simp [numberOfStored, JsNumber.isFinite, JsNumber.gtZero]
      | some s =>
        cases hnum : numberOfString s with
        | nan => simp [numberOfStored, hnum, JsNumber.isFinite]
        | infinity negative => simp [numberOfStored, hnum, JsNumber.isFinite]
        | finite q =>
          have hq : ¬ 0 < q := fun hq => hno ⟨s, q, hget, hnum, hq⟩
          simp [numberOfStored, hnum, JsNumber.isFinite, JsNumber.gtZero, hq]
  · intro hget
    simp [loadSize, hget, numberOfStored, JsNumber.isFinite, JsNumber.gtZero]
  · intro err hget
    simp [loadSize, hget]
  · intro s hget hnum
    simp [loadSize, hget, numberOfStored, hnum, JsNumber.isFinite]
  · intro s negative hget hnum
    simp [loadSize, hget, numberOfStored, hnum, JsNumber.isFinite]
  · intro s q hget hnum hq
    have hq2 : ¬ 0 < q := not_lt.2 hq
    simp [loadSize, hget, numberOfStored, hnum, JsNumber.isFinite, JsNumber.gtZero, hq2]

/-- Witness for `loadSize_spec`: the stored guest size `25` is returned, and the
members entry `abc`, a missing key and an unavailable storage give the fallback 50. -/
theorem loadSize_spec_witness :
    loadSize sampleNumberOfString sampleStorage "pager:guest:size".toList (.finite 50) =
      .ok (.finite 25) ∧
    loadSize sampleNumberOfString sampleStorage "pager:member:size".toList (.finite 50) =
      .ok (.finite 50) ∧
    loadSize sampleNumberOfString sampleStorage "theme-preference".toList (.finite 50) =
      .ok (.finite 50) ∧
    loadSize sampleNumberOfString (.unavailable (newError "denied".toList))
      "pager:guest:size".toList (.finite 50) = .ok (.finite 50) :=
  ⟨(loadSize_spec sampleNumberOfString sampleStorage "pager:guest:size".toList (.finite 50)).2.1
      "25".toList 25 rfl (by decide) (by norm_num),
   (loadSize_spec sampleNumberOfString sampleStorage "pager:member:size".toList
      (.finite 50)).2.2.2.2.2.1 "abc".toList rfl (by decide),
   (loadSize_spec sampleNumberOfString sampleStorage "theme-preference".toList
      (.finite 50)).2.2.2.1 rfl,
   (loadSize_spec sampleNumberOfString (.unavailable (newError "denied".toList))
      "pager:guest:size".toList (.finite 50)).2.2.2.2.1 _ rfl⟩


/-! ## C13: the pages partition the list -/

theorem paginate_pages {α : Type} (list : List α) (page : Int) (pageSize : Nat) :
    (paginate list page pageSize).pages = max 1 ((ceilDiv list.length pageSize : Nat) : Int) := rfl

/-- The slice of a page in range: `pageSize` records from offset `(p - 1) * pageSize`. -/
theorem paginate_slice_eq {α : Type} (list : List α) (i pageSize : Nat) (hps : 0 < pageSize)
    (hi : ((i : Int) + 1) ≤ max 1 ((ceilDiv list.length pageSize : Nat) : Int)) :
    (paginate list ((i : Int) + 1) pageSize).slice = (list.drop (i * pageSize)).take pageSize := by
  obtain ⟨-, hle, -⟩ := paginate_start_lt list.length pageSize ((i : Int) + 1) hps (by omega) hi
  have hle2 : i * pageSize ≤ list.length := by
    have : ((i : Int) + 1 - 1) * (pageSize : Int) = ((i * pageSize : Nat) : Int) := by
      push_cast; ring
    rw [this] at hle
    exact_mod_cast hle
  have hp : min (max 1 ((i : Int) + 1)) (max 1 ((ceilDiv list.length pageSize : Nat) : Int)) =
      (i : Int) + 1 := by
    rw [max_eq_right (by omega), min_eq_left hi]
  have hstart : ((i : Int) + 1 - 1) * (pageSize : Int) = ((i * pageSize : Nat) : Int) := by
    push_cast; ring
  simp only [paginate, hp, hstart, jsSlice]
  have h1 : ¬ ((i * pageSize : Nat) : Int) < 0 := by omega
  have h2 : ¬ ((i * pageSize : Nat) : Int) + (pageSize : Int) < 0 := by omega
  rw [if_neg h1, if_neg h2]
  have hk : (min ((i * pageSize : Nat) : Int) (list.length : Int)).toNat = i * pageSize := by
    rw [min_eq_left (by exact_mod_cast hle2)]
    exact Int.toNat_natCast _
  rw [hk, min_eq_left (by exact_mod_cast hle2 : ((i * pageSize : Nat) : Int) ≤ list.length)]
  rcases le_or_lt (i * pageSize + pageSize) list.length with hfit | hover
  · rw [min_eq_left (by exact_mod_cast hfit)]
    congr 1
    omega
  · rw [min_eq_right (by exact_mod_cast hover.le)]
    have hlen : (list.drop (i * pageSize)).length = list.length - i * pageSize :=
      List.length_drop _ _
    rw [List.take_of_length_le (by rw [hlen]; omega), List.take_of_length_le (by rw [hlen]; omega)]

/-- Consecutive blocks of `pageSize` records, concatenated, give back a prefix. -/
theorem flatten_blocks {α : Type} (list : List α) (pageSize n : Nat) :
    ((List.range n).map (fun (i : Nat) => (list.drop (i * pageSize)).take pageSize)).flatten =
      list.take (n * pageSize) := by
  induction n with
  | zero => simp
  | succ n ih =>
    rw [List.range_succ, List.map_append, List.flatten_append, ih, Nat.succ_mul, List.take_add]
    simp

/-- C13. The pages of `paginate` partition the list: for a positive page size,
with `pages = paginate(list, 1, pageSize).pages`, the slices of the pages
`1, 2, …, pages` concatenated in order are the list; and when the list is not
empty none of these slices is empty. -/
theorem paginate_partition {α : Type} (list : List α) (pageSize : Nat) (hps : 0 < pageSize) :
    ((List.range (paginate list 1 pageSize).pages.toNat).map
      (fun (i : Nat) => (paginate list ((i : Int) + 1) pageSize).slice)).flatten = list ∧
    (list ≠ [] → ∀ p : Int, 1 ≤ p → p ≤ (paginate list 1 pageSize).pages →
      (paginate list p pageSize).slice ≠ []) := by
  rw [paginate_pages]
  obtain ⟨hceil, -⟩ := ceilDiv_mul_bounds list.length pageSize hps
  constructor
  · have hmap : (List.range (max 1 ((ceilDiv list.length pageSize : Nat) : Int)).toNat).map
        (fun (i : Nat) => (paginate list ((i : Int) + 1) pageSize).slice) =
        (List.range (max 1 ((ceilDiv list.length pageSize : Nat) : Int)).toNat).map
        (fun (i : Nat) => (list.drop (i * pageSize)).take pageSize) := by
      apply List.map_congr_left
      intro i hi
      rw [List.mem_range] at hi
      exact paginate_slice_eq list i pageSize hps (by omega)
    rw [hmap, flatten_blocks]
    apply List.take_of_length_le
    have hn : ceilDiv list.length pageSize ≤
        (max 1 ((ceilDiv list.length pageSize : Nat) : Int)).toNat := by
      have := le_max_right (1 : Int) ((ceilDiv list.length pageSize : Nat) : Int)
      omega
    calc list.length ≤ ceilDiv list.length pageSize * pageSize := hceil
      _ ≤ _ := Nat.mul_le_mul_right _ hn
  · intro hne p hp1 hp
    have hpos : 0 < list.length := List.length_pos.2 hne
    obtain ⟨-, -, hlt⟩ := paginate_start_lt list.length pageSize p hps hp1 hp
    have hlt := hlt hpos
    have hi : ((p - 1).toNat : Int) + 1 = p := by omega
    have hslice := paginate_slice_eq list (p - 1).toNat pageSize hps (by rw [hi]; exact hp)
    rw [hi] at hslice
    rw [hslice]
    have hoff : (p - 1).toNat * pageSize < list.length := by
      have : (((p - 1).toNat * pageSize : Nat) : Int) = (p - 1) * (pageSize : Int) := by
        push_cast
        rw [Int.toNat_of_nonneg (by omega)]
      omega
    intro hnil
    have hlen := congrArg List.length hnil
    rw [List.length_take, List.length_drop] at hlen
    simp only [List.length_nil] at hlen
    omega

/-- Witness for `paginate_partition`: five records at page size 2 make the pages
`[1, 2]`, `[3, 4]`, `[5]`. -/
theorem paginate_partition_witness :
    ((List.range (paginate [1, 2, 3, 4, 5] 1 2).pages.toNat).map
      (fun (i : Nat) => (paginate [1, 2, 3, 4, 5] ((i : Int) + 1) 2).slice)).flatten =
      [1, 2, 3, 4, 5] ∧
    (paginate [1, 2, 3, 4, 5] 3 2).slice ≠ [] :=
  ⟨(paginate_partition [1, 2, 3, 4, 5] 2 (by decide)).1,
   (paginate_partition [1, 2, 3, 4, 5] 2 (by decide)).2 (by decide) 3 (by decide) (by decide)⟩

/-- Sample pages of five records at page size 2. -/
theorem paginate_partition_samples :
    (paginate [1, 2, 3, 4, 5] 1 2).pages = 3 ∧
    (paginate [1, 2, 3, 4, 5] 1 2).slice = [1, 2] ∧
    (paginate [1, 2, 3, 4, 5] 2 2).slice = [3, 4] ∧
    (paginate [1, 2, 3, 4, 5] 3 2).slice = [5] := by
  decide

end AuthentikHelper
